import Mathlib

/-!
# Material properties of the renderer (libraries/graphics/src/graphics/Material.cpp)

A shallow embedding of `MaterialKey`, `Material` and the name codec of the two
key enums, followed by the properties proved about them.
-/

namespace graphics

/-! ## MaterialKey: enums and their names -/

/-- Source enum `MaterialKey::OpacityMapMode`; `OPACITY_MAP_OPAQUE = 0`, then MASK, then BLEND. -/
inductive OpacityMapMode where
  | OPACITY_MAP_OPAQUE
  | OPACITY_MAP_MASK
  | OPACITY_MAP_BLEND
deriving DecidableEq, Repr

/-- Integer value of an `OpacityMapMode` enumerator. -/
def OpacityMapMode.toInt : OpacityMapMode → Nat
  | .OPACITY_MAP_OPAQUE => 0
  | .OPACITY_MAP_MASK => 1
  | .OPACITY_MAP_BLEND => 2

/-- The C cast `(MaterialKey::OpacityMapMode) i`, used on `i` in `0..2` only. -/
def OpacityMapMode.ofInt : Nat → OpacityMapMode
  | 0 => .OPACITY_MAP_OPAQUE
  | 1 => .OPACITY_MAP_MASK
  | _ => .OPACITY_MAP_BLEND

/-- Source enum `MaterialKey::CullFaceMode`; `CULL_NONE = 0`, then FRONT, then BACK. -/
inductive CullFaceMode where
  | CULL_NONE
  | CULL_FRONT
  | CULL_BACK
deriving DecidableEq, Repr

/-- Integer value of a `CullFaceMode` enumerator. -/
def CullFaceMode.toInt : CullFaceMode → Nat
  | .CULL_NONE => 0
  | .CULL_FRONT => 1
  | .CULL_BACK => 2

/-- The C cast `(CullFaceMode) i`, used on `i` in `0..2` only. -/
def CullFaceMode.ofInt : Nat → CullFaceMode
  | 0 => .CULL_NONE
  | 1 => .CULL_FRONT
  | _ => .CULL_BACK

/-- The enumerator `NUM_CULL_FACE_MODES`, which closes the `CullFaceMode` enum. -/
def NUM_CULL_FACE_MODES : Nat := 3

/-- Source `MaterialKey::getOpacityMapModeName`: `names[mode]` in a three-entry table. -/
def getOpacityMapModeName (mode : OpacityMapMode) : String :=
  let names : List String := ["OPACITY_MAP_OPAQUE", "OPACITY_MAP_MASK", "OPACITY_MAP_BLEND"]
  names.getD mode.toInt ""

/-- Loop body of `getOpacityMapModeFromName`, for `i` running through the listed values:
the out-parameter `mode` is overwritten at every iteration, before the comparison. -/
def getOpacityMapModeFromNameLoop (modeName : String) :
    List Nat → OpacityMapMode → Bool × OpacityMapMode
  | [], mode => (false, mode)
  | i :: rest, _ =>
    let mode := OpacityMapMode.ofInt i
    if modeName == getOpacityMapModeName mode then (true, mode)
    else getOpacityMapModeFromNameLoop modeName rest mode

/-- Source `MaterialKey::getOpacityMapModeFromName`; the loop runs
`i = OPACITY_MAP_OPAQUE; i <= OPACITY_MAP_BLEND; i++`. The result pairs the returned
flag with the final content of the out-parameter `mode` (whose content on entry is the
second argument). -/
def getOpacityMapModeFromName (modeName : String) (mode : OpacityMapMode) :
    Bool × OpacityMapMode :=
  getOpacityMapModeFromNameLoop modeName
    (List.range' OpacityMapMode.OPACITY_MAP_OPAQUE.toInt
      (OpacityMapMode.OPACITY_MAP_BLEND.toInt + 1 - OpacityMapMode.OPACITY_MAP_OPAQUE.toInt))
    mode

/-- Source `MaterialKey::getCullFaceModeName`: `names[mode]` in a three-entry table. -/
def getCullFaceModeName (mode : CullFaceMode) : String :=
  let names : List String := ["CULL_NONE", "CULL_FRONT", "CULL_BACK"]
  names.getD mode.toInt ""

/-- Loop body of `getCullFaceModeFromName`, for `i` running through the listed values. -/
def getCullFaceModeFromNameLoop (modeName : String) :
    List Nat → CullFaceMode → Bool × CullFaceMode
  | [], mode => (false, mode)
  | i :: rest, _ =>
    let mode := CullFaceMode.ofInt i
    if modeName == getCullFaceModeName mode then (true, mode)
    else getCullFaceModeFromNameLoop modeName rest mode

/-- Source `MaterialKey::getCullFaceModeFromName`; the loop runs
`i = CULL_NONE; i < NUM_CULL_FACE_MODES; i++`. -/
def getCullFaceModeFromName (modeName : String) (mode : CullFaceMode) :
    Bool × CullFaceMode :=
  getCullFaceModeFromNameLoop modeName
    (List.range' CullFaceMode.CULL_NONE.toInt
      (NUM_CULL_FACE_MODES - CullFaceMode.CULL_NONE.toInt))
    mode

/-! ## Scalars, vectors and matrices -/

/-- Values of a C++ `float` as far as comparisons see them: NaN, the two infinities and
the finite values, each finite value being the rational it denotes (so `-0.0f` and
`0.0f` are one value). No arithmetic is modelled: the code below only compares. -/
inductive F32 where
  | nan
  | negInf
  | fin (q : ℚ)
  | posInf
deriving DecidableEq

namespace F32

/-- The literal `0.0f`. -/
def zero : F32 := fin 0

/-- The literal `1.0f`. -/
def one : F32 := fin 1

/-- The C++ comparison `a < b`: false as soon as one operand is NaN. -/
def lt : F32 → F32 → Bool
  | nan, _ => false
  | _, nan => false
  | negInf, negInf => false
  | negInf, _ => true
  | fin _, negInf => false
  | fin a, fin b => decide (a < b)
  | fin _, posInf => true
  | posInf, _ => false

/-- The C++ comparison `a > b`, that is `b < a`. -/
def gt (a b : F32) : Bool := lt b a

/-- The C++ comparison `a <= b`: false as soon as one operand is NaN. -/
def le : F32 → F32 → Bool
  | nan, _ => false
  | _, nan => false
  | negInf, _ => true
  | fin _, negInf => false
  | fin a, fin b => decide (a ≤ b)
  | fin _, posInf => true
  | posInf, posInf => true
  | posInf, _ => false

/-- The C++ comparison `a != b`: true as soon as one operand is NaN. -/
def ne : F32 → F32 → Bool
  | nan, _ => true
  | _, nan => true
  | negInf, negInf => false
  | fin a, fin b => decide (a ≠ b)
  | posInf, posInf => false
  | _, _ => true

/-- Library `std::max(a, b)`: `(a < b) ? b : a`. -/
def stdMax (a b : F32) : F32 := if lt a b then b else a

/-- Library `std::min(a, b)`: `(b < a) ? b : a`. -/
def stdMin (a b : F32) : F32 := if lt b a then b else a

/-- Library `glm::max(x, y)`: `(x < y) ? y : x`. -/
def glmMax (x y : F32) : F32 := if lt x y then y else x

/-- Library `glm::min(x, y)`: `(y < x) ? y : x`. -/
def glmMin (x y : F32) : F32 := if lt y x then y else x

/-- Library `glm::clamp(x, minVal, maxVal)`: `min(max(x, minVal), maxVal)`. -/
def glmClamp (x minVal maxVal : F32) : F32 := glmMin (glmMax x minVal) maxVal

/-- Conversion of a bool to float, as in `glm::vec2(mode, repeat)`. -/
def ofBool (b : Bool) : F32 := if b then one else zero

/-- Conversion of a small non-negative integer (an enumerator) to float. -/
def ofEnum (n : Nat) : F32 := fin n

end F32

/-- Library type `glm::vec2`. -/
structure Vec2 where
  x : F32
  y : F32
deriving DecidableEq

/-- Library type `glm::vec3`. -/
structure Vec3 where
  x : F32
  y : F32
  z : F32
deriving DecidableEq

/-- The constructor `glm::vec3(s)`, all three channels equal to `s`. -/
def Vec3.splat (s : F32) : Vec3 := ⟨s, s, s⟩

/-- Library `glm::any(glm::greaterThan(a, b))`: some channel of `a` is `>` that of `b`. -/
def Vec3.anyGreaterThan (a b : Vec3) : Bool :=
  F32.gt a.x b.x || F32.gt a.y b.y || F32.gt a.z b.z

/-- Library type `glm::mat4`, by rows and columns. -/
abbrev Mat4 := Fin 4 → Fin 4 → F32

/-- The default-constructed `glm::mat4()`, the identity matrix. -/
def Mat4.identity : Mat4 := fun i j => if i = j then F32.one else F32.zero

/-! ## Texture collaborators, seen through the accessors the material reads -/

/-- Usage flags of a gpu texture: `isAlpha()` and `isAlphaMask()`. -/
structure Usage where
  isAlpha : Bool
  isAlphaMask : Bool
deriving DecidableEq

/-- A gpu texture, seen through `getUsage()`, `isDefined()` and `getSize()`. -/
structure Texture where
  getUsage : Usage
  isDefined : Bool
  getSize : Nat
deriving DecidableEq

/-- A gpu texture view: the `_texture` pointer, null when the view is not valid. -/
structure TextureView where
  _texture : Option Texture
deriving DecidableEq

/-- Accessor `TextureView::isValid()`: the `_texture` pointer is not null. -/
def TextureView.isValid (v : TextureView) : Bool := v._texture.isSome

/-- Enumeration `MaterialMappingMode`, by integer value. -/
abbrev MaterialMappingMode := Nat

/-- Modelled from the spec: the enumerator `MaterialMappingMode::UV` (its declaration is not
in Material.cpp); the default material params are "UV-mode, repeat=1", stored as `(0, 1)`. -/
def MaterialMappingMode.UV : MaterialMappingMode := 0

/-- A texture map, seen through the accessors that Material.cpp calls on it. -/
structure TextureMap where
  useAlphaChannel : Bool
  isDefined : Bool
  getTextureView : TextureView
  getTextureTransformMatrix : Mat4
  getLightmapOffsetScale : Vec2
  getMappingMode : MaterialMappingMode
  getRepeat : Bool

/-- The shared pointer `TextureMapPointer`: `none` is the null handle. -/
abbrev TextureMapPointer := Option TextureMap

/-! ## MaterialKey: the flag bitset -/

/-- Modelled from the spec: the enum `MaterialKey::MapChannel` (declared in Material.h, which
is not part of the sources at hand); Material.cpp names `ALBEDO_MAP`, `OCCLUSION_MAP` and
`LIGHT_MAP`, the other channels are the remaining texture slots of a material. -/
inductive MapChannel where
  | EMISSIVE_MAP
  | ALBEDO_MAP
  | METALLIC_MAP
  | ROUGHNESS_MAP
  | NORMAL_MAP
  | OCCLUSION_MAP
  | LIGHT_MAP
  | SCATTERING_MAP
deriving DecidableEq, Fintype

/-- Modelled from the spec: the bits of the key bitset (enum `MaterialKey::FlagBit` of
Material.h): one bit per property of the spec's data model, the bit that records an explicit
opacity-map mode, one presence bit per texture-map channel, and the spare bits. -/
inductive FlagBit where
  | EMISSIVE_VAL_BIT
  | UNLIT_VAL_BIT
  | ALBEDO_VAL_BIT
  | METALLIC_VAL_BIT
  | GLOSSY_VAL_BIT
  | OPACITY_VAL_BIT
  | OPACITY_MASK_MAP_BIT
  | OPACITY_TRANSLUCENT_MAP_BIT
  | OPACITY_MAP_MODE_BIT
  | OPACITY_CUTOFF_VAL_BIT
  | SCATTERING_VAL_BIT
  | MAP_BIT (channel : MapChannel)
  | EXTRA_BIT (n : Fin 5)
deriving DecidableEq, Fintype

/-- Modelled from the spec: the class `MaterialKey` of Material.h, a fixed-width bitset
`_flags` with one boolean per `FlagBit`. -/
structure MaterialKey where
  _flags : FlagBit → Bool

namespace MaterialKey

/-- Modelled from the spec: the default-constructed key, no bit set. -/
def empty : MaterialKey := ⟨fun _ => false⟩

/-- Modelled from the spec: `_flags.set(bit, value)` of the bitset, which writes one bit
and leaves every other bit as it was. -/
def set (k : MaterialKey) (bit : FlagBit) (value : Bool) : MaterialKey :=
  ⟨fun b => if b = bit then value else k._flags b⟩

/-- Modelled from the spec: `_flags[bit]` of the bitset. -/
def test (k : MaterialKey) (bit : FlagBit) : Bool := k._flags bit

/-- Modelled from the spec: inline setter of Material.h for the emissive-present bit. -/
def setEmissive (k : MaterialKey) (value : Bool) : MaterialKey := k.set .EMISSIVE_VAL_BIT value
/-- Modelled from the spec: inline getter of Material.h for the emissive-present bit. -/
def isEmissive (k : MaterialKey) : Bool := k.test .EMISSIVE_VAL_BIT

/-- Modelled from the spec: inline setter of Material.h for the unlit bit. -/
def setUnlit (k : MaterialKey) (value : Bool) : MaterialKey := k.set .UNLIT_VAL_BIT value
/-- Modelled from the spec: inline getter of Material.h for the unlit bit. -/
def isUnlit (k : MaterialKey) : Bool := k.test .UNLIT_VAL_BIT

/-- Modelled from the spec: inline setter of Material.h for the albedo-present bit. -/
def setAlbedo (k : MaterialKey) (value : Bool) : MaterialKey := k.set .ALBEDO_VAL_BIT value
/-- Modelled from the spec: inline getter of Material.h for the albedo-present bit. -/
def isAlbedo (k : MaterialKey) : Bool := k.test .ALBEDO_VAL_BIT

/-- Modelled from the spec: inline setter of Material.h for the metallic bit. -/
def setMetallic (k : MaterialKey) (value : Bool) : MaterialKey := k.set .METALLIC_VAL_BIT value
/-- Modelled from the spec: inline getter of Material.h for the metallic bit. -/
def isMetallic (k : MaterialKey) : Bool := k.test .METALLIC_VAL_BIT

/-- Modelled from the spec: inline setter of Material.h for the glossy bit. -/
def setGlossy (k : MaterialKey) (value : Bool) : MaterialKey := k.set .GLOSSY_VAL_BIT value
/-- Modelled from the spec: inline getter of Material.h for the glossy bit. -/
def isGlossy (k : MaterialKey) : Bool := k.test .GLOSSY_VAL_BIT

/-- Modelled from the spec: inline setter of Material.h for the translucent-factor bit. -/
def setTranslucentFactor (k : MaterialKey) (value : Bool) : MaterialKey :=
  k.set .OPACITY_VAL_BIT value
/-- Modelled from the spec: inline getter of Material.h for the translucent-factor bit. -/
def isTranslucentFactor (k : MaterialKey) : Bool := k.test .OPACITY_VAL_BIT

/-- Modelled from the spec: inline setter of Material.h for the translucent-map bit. -/
def setTranslucentMap (k : MaterialKey) (value : Bool) : MaterialKey :=
  k.set .OPACITY_TRANSLUCENT_MAP_BIT value
/-- Modelled from the spec: inline getter of Material.h for the translucent-map bit. -/
def isTranslucentMap (k : MaterialKey) : Bool := k.test .OPACITY_TRANSLUCENT_MAP_BIT

/-- Modelled from the spec: inline setter of Material.h for the opacity-mask-map bit. -/
def setOpacityMaskMap (k : MaterialKey) (value : Bool) : MaterialKey :=
  k.set .OPACITY_MASK_MAP_BIT value
/-- Modelled from the spec: inline getter of Material.h for the opacity-mask-map bit. -/
def isOpacityMaskMap (k : MaterialKey) : Bool := k.test .OPACITY_MASK_MAP_BIT

/-- Modelled from the spec: inline setter of Material.h for the non-default-cutoff bit. -/
def setOpacityCutoff (k : MaterialKey) (value : Bool) : MaterialKey :=
  k.set .OPACITY_CUTOFF_VAL_BIT value
/-- Modelled from the spec: inline getter of Material.h for the non-default-cutoff bit. -/
def isOpacityCutoff (k : MaterialKey) : Bool := k.test .OPACITY_CUTOFF_VAL_BIT

/-- Modelled from the spec: inline setter of Material.h for the scattering bit. -/
def setScattering (k : MaterialKey) (value : Bool) : MaterialKey :=
  k.set .SCATTERING_VAL_BIT value
/-- Modelled from the spec: inline getter of Material.h for the scattering bit. -/
def isScattering (k : MaterialKey) : Bool := k.test .SCATTERING_VAL_BIT

/-- Modelled from the spec: inline setter of Material.h for the presence bit of a channel. -/
def setMapChannel (k : MaterialKey) (channel : MapChannel) (value : Bool) : MaterialKey :=
  k.set (.MAP_BIT channel) value
/-- Modelled from the spec: inline getter of Material.h for the presence bit of a channel. -/
def isMapChannel (k : MaterialKey) (channel : MapChannel) : Bool := k.test (.MAP_BIT channel)

/-- Modelled from the spec: `MaterialKey::setOpacityMapMode` of Material.h, which "stores the
mode as an explicit override": the mask and translucent-map bits are written to spell the
mode, and the explicit-mode bit is set. -/
def setOpacityMapMode (k : MaterialKey) (mode : OpacityMapMode) : MaterialKey :=
  let k1 :=
    match mode with
    | .OPACITY_MAP_OPAQUE =>
      (k.set .OPACITY_TRANSLUCENT_MAP_BIT false).set .OPACITY_MASK_MAP_BIT false
    | .OPACITY_MAP_MASK =>
      (k.set .OPACITY_TRANSLUCENT_MAP_BIT false).set .OPACITY_MASK_MAP_BIT true
    | .OPACITY_MAP_BLEND =>
      (k.set .OPACITY_TRANSLUCENT_MAP_BIT true).set .OPACITY_MASK_MAP_BIT false
  k1.set .OPACITY_MAP_MODE_BIT true

/-- Modelled from the spec: `MaterialKey::isOpacityMapMode` of Material.h, true when "an
opacity-map-mode was explicitly set via setOpacityMapMode". -/
def isOpacityMapMode (k : MaterialKey) : Bool := k.test .OPACITY_MAP_MODE_BIT

/-- Modelled from the spec: `MaterialKey::getOpacityMapMode` of Material.h, the mode derived
from the two map bits: MASK when the opacity-mask bit is set, else BLEND when the
translucent-map bit is set, else OPAQUE ("mode becomes OPAQUE by deduction"). -/
def getOpacityMapMode (k : MaterialKey) : OpacityMapMode :=
  if k.isOpacityMaskMap then .OPACITY_MAP_MASK
  else if k.isTranslucentMap then .OPACITY_MAP_BLEND
  else .OPACITY_MAP_OPAQUE

end MaterialKey

/-! ## Material -/

/-- A `std::unordered_map` keyed by channel, as its lookup function: `none` is "no entry". -/
abbrev ChannelTable (V : Type) := MapChannel → Option V

/-- Table operation `table[channel] = value`. -/
def ChannelTable.assign {V : Type} (t : ChannelTable V) (channel : MapChannel) (value : V) :
    ChannelTable V :=
  fun c => if c = channel then some value else t c

/-- Table operation `table.erase(channel)`. -/
def ChannelTable.erase {V : Type} (t : ChannelTable V) (channel : MapChannel) :
    ChannelTable V :=
  fun c => if c = channel then none else t c

/-- Table operation `table.find(channel)`: `none` stands for `table.end()`. -/
def ChannelTable.find {V : Type} (t : ChannelTable V) (channel : MapChannel) : Option V :=
  t channel

/-- A gpu sampler, an externally defined value. -/
abbrev Sampler := Nat

/-- Modelled from the spec: the number of UV-transform slots ("four UV-transform matrices");
Material.cpp writes slots 0 and 1. -/
def NUM_TEXCOORD_TRANSFORMS : Nat := 4

/-- Source constants of Material.cpp. -/
def DEFAULT_EMISSIVE : F32 := .fin 0
/-- Source constant `Material::DEFAULT_OPACITY`. -/
def DEFAULT_OPACITY : F32 := .fin 1
/-- Source constant `Material::DEFAULT_ALBEDO`. -/
def DEFAULT_ALBEDO : F32 := .fin (1 / 2)
/-- Source constant `Material::DEFAULT_METALLIC`. -/
def DEFAULT_METALLIC : F32 := .fin 0
/-- Source constant `Material::DEFAULT_ROUGHNESS`. -/
def DEFAULT_ROUGHNESS : F32 := .fin 1
/-- Source constant `Material::DEFAULT_SCATTERING`. -/
def DEFAULT_SCATTERING : F32 := .fin 0
/-- Source constant `Material::DEFAULT_OPACITY_MAP_MODE`. -/
def DEFAULT_OPACITY_MAP_MODE : OpacityMapMode := .OPACITY_MAP_OPAQUE
/-- Source constant `Material::DEFAULT_OPACITY_CUTOFF`. -/
def DEFAULT_OPACITY_CUTOFF : F32 := .fin (1 / 2)
/-- Source constant `Material::DEFAULT_CULL_FACE_MODE`. -/
def DEFAULT_CULL_FACE_MODE : CullFaceMode := .CULL_BACK
/-- Source constant `Material::HIFI_PBR`. -/
def HIFI_PBR : String := "hifi_pbr"

/-- The data members of class `Material`, as copied one by one by the copy constructor of
Material.cpp (the mutex apart). -/
structure Material where
  _name : String
  _key : MaterialKey
  _model : String
  _layers : Nat
  _emissive : Vec3
  _opacity : F32
  _albedo : Vec3
  _roughness : F32
  _metallic : F32
  _scattering : F32
  _opacityCutoff : F32
  _texcoordTransforms : Fin NUM_TEXCOORD_TRANSFORMS → Mat4
  _lightmapParams : Vec2
  _materialParams : Vec2
  _cullFaceMode : CullFaceMode
  _textureMaps : ChannelTable TextureMapPointer
  _samplers : ChannelTable Sampler
  _texCoordSets : ChannelTable Int
  _defaultFallthrough : Bool
  _propertyFallthroughs : Nat → Bool

namespace Material

/-- Source `Material::Material()`: every fallthrough flag is cleared by the constructor body.
Modelled from the spec for the member initialisers, which Material.h holds: empty key, empty
tables, scalars at the `DEFAULT_*` constants, identity UV transforms, lightmap params
`(0, 1)` and material params `(0, 1)`. -/
def fresh : Material where
  _name := ""
  _key := MaterialKey.empty
  _model := HIFI_PBR
  _layers := 1
  _emissive := Vec3.splat DEFAULT_EMISSIVE
  _opacity := DEFAULT_OPACITY
  _albedo := Vec3.splat DEFAULT_ALBEDO
  _roughness := DEFAULT_ROUGHNESS
  _metallic := DEFAULT_METALLIC
  _scattering := DEFAULT_SCATTERING
  _opacityCutoff := DEFAULT_OPACITY_CUTOFF
  _texcoordTransforms := fun _ => Mat4.identity
  _lightmapParams := ⟨.fin 0, .fin 1⟩
  _materialParams := ⟨.fin 0, .fin 1⟩
  _cullFaceMode := DEFAULT_CULL_FACE_MODE
  _textureMaps := fun _ => none
  _samplers := fun _ => none
  _texCoordSets := fun _ => none
  _defaultFallthrough := false
  _propertyFallthroughs := fun _ => false

/-- Source `Material::setEmissive`. The colour-space utility `ColorUtils::sRGBToLinearVec3`
is an external pure function and is taken as the parameter `sRGBToLinearVec3`. -/
def setEmissive (sRGBToLinearVec3 : Vec3 → Vec3) (m : Material) (emissive : Vec3)
    (isSRGB : Bool) : Material :=
  { m with
    _key := m._key.setEmissive (Vec3.anyGreaterThan emissive (Vec3.splat (.fin 0)))
    _emissive := if isSRGB then sRGBToLinearVec3 emissive else emissive }

/-- Source `Material::setOpacity`. -/
def setOpacity (m : Material) (opacity : F32) : Material :=
  { m with
    _key := m._key.setTranslucentFactor (F32.lt opacity (.fin 1))
    _opacity := opacity }

/-- Source `Material::setUnlit`. -/
def setUnlit (m : Material) (value : Bool) : Material :=
  { m with _key := m._key.setUnlit value }

/-- Source `Material::setAlbedo`, with the colour-space utility as a parameter. -/
def setAlbedo (sRGBToLinearVec3 : Vec3 → Vec3) (m : Material) (albedo : Vec3)
    (isSRGB : Bool) : Material :=
  { m with
    _key := m._key.setAlbedo true
    _albedo := if isSRGB then sRGBToLinearVec3 albedo else albedo }

/-- Source `Material::setRoughness`. -/
def setRoughness (m : Material) (roughness : F32) : Material :=
  let roughness := F32.stdMin (.fin 1) (F32.stdMax roughness (.fin 0))
  { m with
    _key := m._key.setGlossy (F32.lt roughness (.fin 1))
    _roughness := roughness }

/-- Source `Material::setMetallic`. -/
def setMetallic (m : Material) (metallic : F32) : Material :=
  let metallic := F32.glmClamp metallic (.fin 0) (.fin 1)
  { m with
    _key := m._key.setMetallic (F32.gt metallic (.fin 0))
    _metallic := metallic }

/-- Source `Material::setScattering`. -/
def setScattering (m : Material) (scattering : F32) : Material :=
  let scattering := F32.glmClamp scattering (.fin 0) (.fin 1)
  { m with
    _key := m._key.setScattering (F32.gt scattering (.fin 0))
    _scattering := scattering }

/-- Source `Material::setOpacityCutoff`. -/
def setOpacityCutoff (m : Material) (opacityCutoff : F32) : Material :=
  let opacityCutoff := F32.glmClamp opacityCutoff (.fin 0) (.fin 1)
  { m with
    _key := m._key.setOpacityCutoff (F32.ne opacityCutoff DEFAULT_OPACITY_CUTOFF)
    _opacityCutoff := opacityCutoff }

/-- Source `Material::setOpacityMapMode`. -/
def setOpacityMapMode (m : Material) (opacityMapMode : OpacityMapMode) : Material :=
  { m with _key := m._key.setOpacityMapMode opacityMapMode }

/-- Source `Material::getOpacityMapMode`. -/
def getOpacityMapMode (m : Material) : OpacityMapMode := m._key.getOpacityMapMode

/-- Source `Material::getTextureMap`: the stored handle, or the null handle when the table
has no entry for the channel. -/
def getTextureMap (m : Material) (channel : MapChannel) : TextureMapPointer :=
  match m._textureMaps.find channel with
  | some result => result
  | none => none

/-- Source `Material::resetOpacityMap`: the returned flag, and the material with its
(mutable) key as the call leaves it. -/
def resetOpacityMap (m : Material) : Bool × Material :=
  if m._key.isOpacityMapMode then (false, m)
  else
    let previous := m._key.getOpacityMapMode
    let key := (m._key.setOpacityMaskMap false).setTranslucentMap false
    let key :=
      match m.getTextureMap .ALBEDO_MAP with
      | some textureMap =>
        if textureMap.useAlphaChannel && textureMap.isDefined
            && textureMap.getTextureView.isValid then
          match textureMap.getTextureView._texture with
          | some texture =>
            let usage := texture.getUsage
            if usage.isAlpha then
              if usage.isAlphaMask then
                (key.setOpacityMaskMap true).setTranslucentMap false
              else
                (key.setOpacityMaskMap false).setTranslucentMap true
            else key
          | none => key
        else key
      | none => key
    if previous ≠ key.getOpacityMapMode then (true, { m with _key := key })
    else (false, { m with _key := key })

/-- The expression `textureMap ? textureMap->getTextureTransform().getMatrix() : glm::mat4()`
of `setTextureMap`. -/
def transformOf (textureMap : TextureMapPointer) : Mat4 :=
  match textureMap with
  | some tm => tm.getTextureTransformMatrix
  | none => Mat4.identity

/-- Array store `slots[i] = value` on the UV transforms. -/
def storeTransform (slots : Fin NUM_TEXCOORD_TRANSFORMS → Mat4)
    (i : Fin NUM_TEXCOORD_TRANSFORMS) (value : Mat4) : Fin NUM_TEXCOORD_TRANSFORMS → Mat4 :=
  fun j => if j = i then value else slots j

/-- Source `Material::setTextureMap`, statement by statement. -/
def setTextureMap (m : Material) (channel : MapChannel) (textureMap : TextureMapPointer) :
    Material :=
  let m : Material :=
    if textureMap.isSome then
      { m with
        _key := m._key.setMapChannel channel true
        _textureMaps := m._textureMaps.assign channel textureMap }
    else
      { m with
        _key := m._key.setMapChannel channel false
        _textureMaps := m._textureMaps.erase channel }
  let m : Material :=
    if channel = .ALBEDO_MAP then
      let m := (resetOpacityMap m).2
      { m with
        _texcoordTransforms := storeTransform m._texcoordTransforms ⟨0, by decide⟩
          (transformOf textureMap) }
    else m
  let m : Material :=
    if channel = .OCCLUSION_MAP then
      { m with
        _texcoordTransforms := storeTransform m._texcoordTransforms ⟨1, by decide⟩
          (transformOf textureMap) }
    else m
  let m : Material :=
    if channel = .LIGHT_MAP then
      { m with
        _texcoordTransforms := storeTransform m._texcoordTransforms ⟨1, by decide⟩
          (transformOf textureMap)
        _lightmapParams :=
          match textureMap with
          | some tm => tm.getLightmapOffsetScale
          | none => ⟨.fin 0, .fin 1⟩ }
    else m
  { m with
    _materialParams :=
      match textureMap with
      | some tm => ⟨F32.ofEnum tm.getMappingMode, F32.ofBool tm.getRepeat⟩
      | none => ⟨F32.ofEnum MaterialMappingMode.UV, .fin 1⟩ }

/-- Source `Material::setSampler`. -/
def setSampler (m : Material) (channel : MapChannel) (sampler : Sampler) : Material :=
  { m with _samplers := m._samplers.assign channel sampler }

/-- Source `Material::setTexCoordSet`. -/
def setTexCoordSet (m : Material) (channel : MapChannel) (texCoordSet : Int) : Material :=
  { m with _texCoordSets := m._texCoordSets.assign channel texCoordSet }

/-- Source `Material::getTexCoordSet`: the stored index, or 0 when there is none. -/
def getTexCoordSet (m : Material) (channel : MapChannel) : Int :=
  match m._texCoordSets.find channel with
  | some result => result
  | none => 0

end Material

/-! ## MultiMaterial -/

/-- A gpu texture handle `gpu::TexturePointer` as the texture table holds it: `none` is the
null handle, else the texture seen through `isDefined()` and `getSize()`. -/
abbrev TexturePointer := Option Texture

/-- A gpu texture table, seen through `getTextures()`: the sequence of its texture handles. -/
structure TextureTable where
  getTextures : List TexturePointer

/-- Identity of a shared handle (texture or material): `none` is the null handle, else the
address of the object; `!=` on two handles compares these. -/
abbrev HandleId := Option Nat

/-- A producer `std::function<Handle()>`: the handle it returns, in a given state of the
world outside the material. -/
abbrev Producer (World : Type) := World → HandleId

/-- A gpu buffer view over a freshly made buffer: its size in bytes (contents are not
modelled). -/
structure BufferView where
  _size : Nat
deriving DecidableEq

/-- The sizes `sizeof(Schema)` and `sizeof(MToonSchema)` of the two schema structs, which
Material.h declares; they are parameters of the model. -/
structure SchemaSizes where
  sizeofSchema : Nat
  sizeofMToonSchema : Nat

/-- The data members of class `MultiMaterial` that Material.cpp reads or writes. The last
field, `buffersMade`, is not a member: it counts the `std::make_shared<gpu::Buffer>` calls
made for this object so far, to tell a reallocation from a kept buffer. -/
structure MultiMaterial (World : Type) where
  _schemaBuffer : BufferView
  _textureTables : Fin 3 → TextureTable
  _layers : Nat
  _isMToon : Bool
  _textureSize : Nat
  _textureCount : Nat
  _hasCalculatedTextureInfo : Bool
  _referenceTextures : List (Producer World × HandleId)
  _referenceMaterials : List (Producer World × HandleId)
  buffersMade : Nat

namespace MultiMaterial

/-- Source `MultiMaterial::MultiMaterial()`: one buffer of `sizeof(Schema)` bytes is made and
every texture table is a new, empty table (`emptyTable`, what `gpu::TextureTable()` builds).
Modelled from the spec for the member initialisers, which Material.h holds: one layer,
non-toon, no cached texture statistics, empty reference lists. -/
def fresh {World : Type} (sizes : SchemaSizes) (emptyTable : TextureTable) :
    MultiMaterial World where
  _schemaBuffer := ⟨sizes.sizeofSchema⟩
  _textureTables := fun _ => emptyTable
  _layers := 1
  _isMToon := false
  _textureSize := 0
  _textureCount := 0
  _hasCalculatedTextureInfo := false
  _referenceTextures := []
  _referenceMaterials := []
  buffersMade := 1

/-- Inner loop of `calculateMaterialInfo` over the textures of one table; the state is
`(allTextures, _textureSize, _textureCount)`. -/
def calculateMaterialInfoTextures :
    List TexturePointer → Bool × Nat × Nat → Bool × Nat × Nat
  | [], acc => acc
  | texture :: rest, (allTextures, textureSize, textureCount) =>
    match texture with
    | some tex =>
      if tex.isDefined then
        let size := tex.getSize
        calculateMaterialInfoTextures rest (allTextures, textureSize + size, textureCount + 1)
      else
        calculateMaterialInfoTextures rest (false, textureSize, textureCount)
    | none => calculateMaterialInfoTextures rest (false, textureSize, textureCount)

/-- Outer loop of `calculateMaterialInfo`, for `i` running through the listed layer indices.
`_textureTables[i]` is an access to an array of three tables: an index of 3 or more has
no defined result, which is `none` here. -/
def calculateMaterialInfoLayers (textureTables : Fin 3 → TextureTable) :
    List Nat → Bool × Nat × Nat → Option (Bool × Nat × Nat)
  | [], acc => some acc
  | i :: rest, acc =>
    if h : i < 3 then
      let textures := (textureTables ⟨i, h⟩).getTextures
      calculateMaterialInfoLayers textureTables rest (calculateMaterialInfoTextures textures acc)
    else none

/-- Source `MultiMaterial::calculateMaterialInfo`; the loop runs `i = 0; i < _layers; i++`.
The result is the object with its (mutable) statistics as the call leaves them, or `none`
when the loop indexes past the three texture tables. -/
def calculateMaterialInfo {World : Type} (mm : MultiMaterial World) :
    Option (MultiMaterial World) :=
  if !mm._hasCalculatedTextureInfo then
    match calculateMaterialInfoLayers mm._textureTables (List.range mm._layers) (true, 0, 0) with
    | some (allTextures, textureSize, textureCount) =>
      some { mm with
        _textureSize := textureSize
        _textureCount := textureCount
        _hasCalculatedTextureInfo := allTextures }
    | none => none
  else some mm

/-- Source `MultiMaterial::resetReferenceTexturesAndMaterials`. -/
def resetReferenceTexturesAndMaterials {World : Type} (mm : MultiMaterial World) :
    MultiMaterial World :=
  { mm with _referenceTextures := [], _referenceMaterials := [] }

/-- Source `MultiMaterial::addReferenceTexture`, called in the world state `w`: the producer
is stored with the handle it returns now. -/
def addReferenceTexture {World : Type} (mm : MultiMaterial World) (w : World)
    (textureOperator : Producer World) : MultiMaterial World :=
  { mm with _referenceTextures := mm._referenceTextures ++ [(textureOperator, textureOperator w)] }

/-- Source `MultiMaterial::addReferenceMaterial`, called in the world state `w`. -/
def addReferenceMaterial {World : Type} (mm : MultiMaterial World) (w : World)
    (materialOperator : Producer World) : MultiMaterial World :=
  { mm with
    _referenceMaterials := mm._referenceMaterials ++ [(materialOperator, materialOperator w)] }

/-- One loop of `anyReferenceMaterialsOrTexturesChanged` over a reference list, in the world
state `w`: `true` at the first pair whose producer returns a handle other than the stored
one, `false` when the list is exhausted. -/
def anyReferenceChanged {World : Type} (w : World) :
    List (Producer World × HandleId) → Bool
  | [] => false
  | operatorPair :: rest =>
    if operatorPair.1 w ≠ operatorPair.2 then true else anyReferenceChanged w rest

/-- Source `MultiMaterial::anyReferenceMaterialsOrTexturesChanged`, called in the world state
`w`: textures are scanned first, then materials. The method is `const` and writes no
member, so the object after the call is the object before it. -/
def anyReferenceMaterialsOrTexturesChanged {World : Type} (mm : MultiMaterial World)
    (w : World) : Bool :=
  if anyReferenceChanged w mm._referenceTextures then true
  else if anyReferenceChanged w mm._referenceMaterials then true
  else false

/-- Source `MultiMaterial::setisMToonAndLayers`: when the flag or the layer count differs,
both are stored and a new buffer of `size = _layers * sizeof(...)` bytes replaces the
schema buffer. The new buffer is filled by copying `size` bytes out of a local array of
three schemas, `std::array<..., 3>`: when `size` exceeds the `3 * sizeof(...)` bytes of that
array (that is, for more than three layers) the copy reads past the array and the call
has no defined result, which is `none` here. -/
def setisMToonAndLayers {World : Type} (sizes : SchemaSizes) (mm : MultiMaterial World)
    (isMToon : Bool) (layers : Nat) : Option (MultiMaterial World) :=
  if isMToon ≠ mm._isMToon ∨ layers ≠ mm._layers then
    let mm := { mm with _isMToon := isMToon, _layers := layers }
    if isMToon then
      let size := mm._layers * sizes.sizeofMToonSchema
      if size ≤ 3 * sizes.sizeofMToonSchema then
        some { mm with _schemaBuffer := ⟨size⟩, buffersMade := mm.buffersMade + 1 }
      else none
    else
      let size := mm._layers * sizes.sizeofSchema
      if size ≤ 3 * sizes.sizeofSchema then
        some { mm with _schemaBuffer := ⟨size⟩, buffersMade := mm.buffersMade + 1 }
      else none
  else some mm

/-- `sizeof` of the schema variant that the toon flag selects. -/
def activeSchemaSize (sizes : SchemaSizes) (isMToon : Bool) : Nat :=
  if isMToon then sizes.sizeofMToonSchema else sizes.sizeofSchema

end MultiMaterial

/-- One call of a method of `MultiMaterial` defined in Material.cpp, with its arguments and,
for the registration of a producer, the world state it is called in. -/
inductive MultiCall (World : Type) where
  | setisMToonAndLayers (isMToon : Bool) (layers : Nat)
  | calculateMaterialInfo
  | resetReferenceTexturesAndMaterials
  | addReferenceTexture (w : World) (textureOperator : Producer World)
  | addReferenceMaterial (w : World) (materialOperator : Producer World)

/-- The object after one method call; `none` when the call (`setisMToonAndLayers` or
`calculateMaterialInfo` past the capacity of three layers) has no defined result. -/
def MultiMaterial.call {World : Type} (sizes : SchemaSizes) (mm : MultiMaterial World) :
    MultiCall World → Option (MultiMaterial World)
  | .setisMToonAndLayers isMToon layers => mm.setisMToonAndLayers sizes isMToon layers
  | .calculateMaterialInfo => mm.calculateMaterialInfo
  | .resetReferenceTexturesAndMaterials => some mm.resetReferenceTexturesAndMaterials
  | .addReferenceTexture w textureOperator => some (mm.addReferenceTexture w textureOperator)
  | .addReferenceMaterial w materialOperator => some (mm.addReferenceMaterial w materialOperator)

/-- The object after a finite sequence of method calls, first call first; `none` as soon as
one call has no defined result. -/
def MultiMaterial.run {World : Type} (sizes : SchemaSizes) :
    MultiMaterial World → List (MultiCall World) → Option (MultiMaterial World)
  | mm, [] => some mm
  | mm, c :: rest =>
    match mm.call sizes c with
    | some mm2 => MultiMaterial.run sizes mm2 rest
    | none => none

/-- The schema buffer has `_layers * sizeof(active schema variant)` bytes. -/
def MultiMaterial.SchemaBufferSized {World : Type} (sizes : SchemaSizes)
    (mm : MultiMaterial World) : Prop :=
  mm._schemaBuffer._size = mm._layers * MultiMaterial.activeSchemaSize sizes mm._isMToon

/-- The texture handles of the tables of layers `0 .. layers-1`, in loop order (the spec's
"texture tables of the active layers"). -/
def MultiMaterial.activeTextures {World : Type} (mm : MultiMaterial World) :
    List TexturePointer :=
  (if 0 < mm._layers then (mm._textureTables 0).getTextures else []) ++
  (if 1 < mm._layers then (mm._textureTables 1).getTextures else []) ++
  (if 2 < mm._layers then (mm._textureTables 2).getTextures else [])

/-- A texture handle that is non-null and defined. -/
def TexturePointer.isReady : TexturePointer → Bool
  | some tex => tex.isDefined
  | none => false

/-- The size of the texture behind a handle, 0 for the null handle. -/
def TexturePointer.sizeOrZero : TexturePointer → Nat
  | some tex => tex.getSize
  | none => 0

/-- The spec's count: the number of handles that are non-null and defined. -/
def readyCount (textures : List TexturePointer) : Nat :=
  (textures.filter TexturePointer.isReady).length

/-- The spec's size: the sum of `getSize()` over the handles that are non-null and defined. -/
def readySize (textures : List TexturePointer) : Nat :=
  ((textures.filter TexturePointer.isReady).map TexturePointer.sizeOrZero).sum

/-! ## Sequences of setter calls -/

/-- One call of a public setter of `Material`, with its arguments. -/
inductive SetterCall where
  | setEmissive (emissive : Vec3) (isSRGB : Bool)
  | setOpacity (opacity : F32)
  | setUnlit (value : Bool)
  | setAlbedo (albedo : Vec3) (isSRGB : Bool)
  | setRoughness (roughness : F32)
  | setMetallic (metallic : F32)
  | setScattering (scattering : F32)
  | setOpacityCutoff (opacityCutoff : F32)
  | setOpacityMapMode (opacityMapMode : OpacityMapMode)
  | setTextureMap (channel : MapChannel) (textureMap : TextureMapPointer)
  | resetOpacityMap

/-- The material after one setter call (the flag returned by `resetOpacityMap` is dropped). -/
def Material.call (sRGBToLinearVec3 : Vec3 → Vec3) (m : Material) : SetterCall → Material
  | .setEmissive emissive isSRGB => Material.setEmissive sRGBToLinearVec3 m emissive isSRGB
  | .setOpacity opacity => m.setOpacity opacity
  | .setUnlit value => m.setUnlit value
  | .setAlbedo albedo isSRGB => Material.setAlbedo sRGBToLinearVec3 m albedo isSRGB
  | .setRoughness roughness => m.setRoughness roughness
  | .setMetallic metallic => m.setMetallic metallic
  | .setScattering scattering => m.setScattering scattering
  | .setOpacityCutoff opacityCutoff => m.setOpacityCutoff opacityCutoff
  | .setOpacityMapMode opacityMapMode => m.setOpacityMapMode opacityMapMode
  | .setTextureMap channel textureMap => m.setTextureMap channel textureMap
  | .resetOpacityMap => (Material.resetOpacityMap m).2

/-- The material after a finite sequence of setter calls, first call first. -/
def Material.run (sRGBToLinearVec3 : Vec3 → Vec3) (m : Material) (calls : List SetterCall) :
    Material :=
  calls.foldl (Material.call sRGBToLinearVec3) m

/-! ## Auxiliary definitions of the proofs -/

/-- The map conditions that `resetOpacityMap` checks before it reads the alpha usage: the
ALBEDO map is present, uses its alpha channel, is defined, and its texture view is valid,
`tex` being the texture of the view. -/
def Material.AlbedoAlphaSource (m : Material) (tex : Texture) : Prop :=
  ∃ tm : TextureMap, m.getTextureMap .ALBEDO_MAP = some tm ∧ tm.useAlphaChannel = true ∧
    tm.isDefined = true ∧ tm.getTextureView.isValid = true ∧
    tm.getTextureView._texture = some tex

/-- The key as `resetOpacityMap` leaves it when no explicit mode is set: both map bits
cleared, then one of them set again according to the alpha usage of the ALBEDO texture. -/
def Material.inspectedKey (m : Material) : MaterialKey :=
  let key := (m._key.setOpacityMaskMap false).setTranslucentMap false
  match m.getTextureMap .ALBEDO_MAP with
  | some textureMap =>
    if textureMap.useAlphaChannel && textureMap.isDefined
        && textureMap.getTextureView.isValid then
      match textureMap.getTextureView._texture with
      | some texture =>
        if texture.getUsage.isAlpha then
          if texture.getUsage.isAlphaMask then
            (key.setOpacityMaskMap true).setTranslucentMap false
          else
            (key.setOpacityMaskMap false).setTranslucentMap true
        else key
      | none => key
    else key
  | none => key

/-- The material after the first statement of `setTextureMap`: presence bit and table entry. -/
def Material.withMap (m : Material) (channel : MapChannel) (textureMap : TextureMapPointer) :
    Material :=
  if textureMap.isSome then
    { m with
      _key := m._key.setMapChannel channel true
      _textureMaps := m._textureMaps.assign channel textureMap }
  else
    { m with
      _key := m._key.setMapChannel channel false
      _textureMaps := m._textureMaps.erase channel }

/-- The opacity-mask bit and the translucent-map bit of a key are not both set. -/
def MaterialKey.OpacityBitsExclusive (k : MaterialKey) : Prop :=
  ¬ (k.isOpacityMaskMap = true ∧ k.isTranslucentMap = true)

/-- The key and the texture table of a material agree: the presence bit of a channel is set
exactly when the table has an entry for it, and no entry holds the null handle. -/
def Material.KeyMatchesTable (m : Material) : Prop :=
  ∀ c : MapChannel,
    (m._key.isMapChannel c = true ↔ (m._textureMaps.find c).isSome = true) ∧
    m._textureMaps.find c ≠ some none

/-! ## The clamp of the spec -/

/-- The clamp to `[0, 1]` as the spec words it, `min(1, max(r, 0))` on the extended line:
the infinities go to the nearer bound, a finite value to the rational `min 1 (max q 0)`.
NaN has no clamp and is kept. -/
def F32.clamp01 : F32 → F32
  | .nan => .nan
  | .negInf => .fin 0
  | .fin q => .fin (min 1 (max q 0))
  | .posInf => .fin 1

/-! ## Sample inputs -/

/-- A defined texture whose alpha channel is a mask. -/
def sampleMaskTexture : Texture :=
  { getUsage := { isAlpha := true, isAlphaMask := true }, isDefined := true, getSize := 64 }

/-- A defined texture whose alpha channel blends. -/
def sampleBlendTexture : Texture :=
  { getUsage := { isAlpha := true, isAlphaMask := false }, isDefined := true, getSize := 64 }

/-- A texture map over `sampleMaskTexture` that uses its alpha channel. -/
def sampleMaskMap : TextureMap :=
  { useAlphaChannel := true
    isDefined := true
    getTextureView := { _texture := some sampleMaskTexture }
    getTextureTransformMatrix := Mat4.identity
    getLightmapOffsetScale := ⟨.fin 0, .fin 1⟩
    getMappingMode := MaterialMappingMode.UV
    getRepeat := true }

/-- A texture map over `sampleBlendTexture` that uses its alpha channel. -/
def sampleBlendMap : TextureMap :=
  { useAlphaChannel := true
    isDefined := true
    getTextureView := { _texture := some sampleBlendTexture }
    getTextureTransformMatrix := Mat4.identity
    getLightmapOffsetScale := ⟨.fin 0, .fin 1⟩
    getMappingMode := MaterialMappingMode.UV
    getRepeat := true }

/-- A material with no explicit mode whose table holds `sampleMaskMap` on ALBEDO, as the
first statement of `setTextureMap` leaves a fresh material. -/
def sampleMaskedMaterial : Material :=
  { Material.fresh with
    _key := Material.fresh._key.setMapChannel .ALBEDO_MAP true
    _textureMaps := Material.fresh._textureMaps.assign .ALBEDO_MAP (some sampleMaskMap) }

/-- A material with the explicit mode OPAQUE whose table holds `sampleBlendMap` on ALBEDO. -/
def sampleExplicitMaterial : Material :=
  { Material.fresh with
    _key := (Material.fresh._key.setOpacityMapMode .OPACITY_MAP_OPAQUE).setMapChannel
      .ALBEDO_MAP true
    _textureMaps := Material.fresh._textureMaps.assign .ALBEDO_MAP (some sampleBlendMap) }

/-- A channel conversion that underflows: a finite value of magnitude below `2^-126` (the
smallest normal float) becomes 0, every other value is kept. -/
def F32.flushTiny : F32 → F32
  | .fin q => if |q| < 1 / 2 ^ 126 then .fin 0 else .fin q
  | x => x

/-- A colour conversion whose arithmetic rounds tiny channels to zero, as a sample of what
the external `sRGBToLinearVec3` may be. -/
def sampleUnderflowingConversion (c : Vec3) : Vec3 :=
  ⟨F32.flushTiny c.x, F32.flushTiny c.y, F32.flushTiny c.z⟩

/-- The colour whose red channel is the smallest positive float, `2^-149`. -/
def sampleTinyRed : Vec3 := ⟨.fin (1 / 2 ^ 149), .fin 0, .fin 0⟩

/-- Sample sizes of the two schema structs, in bytes. -/
def sampleSchemaSizes : SchemaSizes := { sizeofSchema := 64, sizeofMToonSchema := 192 }

/-- A newly constructed object over no world state, with empty texture tables. -/
def sampleFreshMultiMaterial : MultiMaterial Unit :=
  MultiMaterial.fresh sampleSchemaSizes ⟨[]⟩

/-- A texture that is not defined yet. -/
def samplePendingTexture : Texture :=
  { getUsage := { isAlpha := false, isAlphaMask := false }, isDefined := false, getSize := 32 }

/-- A two-layer object over no world state, with no statistics cached: layer 0 holds a
defined texture and a null handle, layer 1 a pending texture, layer 2 (not active) a
defined texture. -/
def sampleMultiMaterial : MultiMaterial Unit :=
  { _schemaBuffer := ⟨0⟩
    _textureTables := fun i =>
      if i = 0 then ⟨[some sampleMaskTexture, none]⟩
      else if i = 1 then ⟨[some samplePendingTexture]⟩
      else ⟨[some sampleBlendTexture]⟩
    _layers := 2
    _isMToon := false
    _textureSize := 7
    _textureCount := 7
    _hasCalculatedTextureInfo := false
    _referenceTextures := []
    _referenceMaterials := []
    buffersMade := 1 }

/-! ## The name codec -/

/-- The loop of `getOpacityMapModeFromName`, unrolled over its three iterations. -/
theorem getOpacityMapModeFromName_unroll (s : String) (out : OpacityMapMode) :
    getOpacityMapModeFromName s out =
      if s = "OPACITY_MAP_OPAQUE" then (true, .OPACITY_MAP_OPAQUE)
      else if s = "OPACITY_MAP_MASK" then (true, .OPACITY_MAP_MASK)
      else if s = "OPACITY_MAP_BLEND" then (true, .OPACITY_MAP_BLEND)
      else (false, .OPACITY_MAP_BLEND) := by
  simp [getOpacityMapModeFromName, getOpacityMapModeFromNameLoop, List.range',
    OpacityMapMode.toInt, OpacityMapMode.ofInt, getOpacityMapModeName]

/-- The loop of `getCullFaceModeFromName`, unrolled over its three iterations. -/
theorem getCullFaceModeFromName_unroll (s : String) (out : CullFaceMode) :
    getCullFaceModeFromName s out =
      if s = "CULL_NONE" then (true, .CULL_NONE)
      else if s = "CULL_FRONT" then (true, .CULL_FRONT)
      else if s = "CULL_BACK" then (true, .CULL_BACK)
      else (false, .CULL_BACK) := by
  simp [getCullFaceModeFromName, getCullFaceModeFromNameLoop, List.range',
    CullFaceMode.toInt, CullFaceMode.ofInt, getCullFaceModeName, NUM_CULL_FACE_MODES]

/-- C5: encoding an enum value to its name and decoding the name gives the value back, for
each of the three opacity-map modes and each of the three cull-face modes, whatever the
out-parameter held before the call. -/
theorem name_encode_decode_identity :
    (∀ m out : OpacityMapMode,
      getOpacityMapModeFromName (getOpacityMapModeName m) out = (true, m)) ∧
    (∀ c out : CullFaceMode,
      getCullFaceModeFromName (getCullFaceModeName c) out = (true, c)) := by
  constructor
  · intro m out
    cases m <;> cases out <;> rfl
  · intro c out
    cases c <;> cases out <;> rfl

/-- C6: decoding succeeds exactly on the three canonical names of each enum (compared
case-sensitively), a successful decode yields the mode whose name is the input, and any
other string, such as the empty or a lower-case name, is rejected. -/
theorem name_decode_exact_match (s : String) (outO : OpacityMapMode) (outC : CullFaceMode) :
    ((getOpacityMapModeFromName s outO).1 = true ↔
        (s = "OPACITY_MAP_OPAQUE" ∨ s = "OPACITY_MAP_MASK" ∨ s = "OPACITY_MAP_BLEND")) ∧
    ((getOpacityMapModeFromName s outO).1 = true →
        getOpacityMapModeName (getOpacityMapModeFromName s outO).2 = s) ∧
    ((getCullFaceModeFromName s outC).1 = true ↔
        (s = "CULL_NONE" ∨ s = "CULL_FRONT" ∨ s = "CULL_BACK")) ∧
    ((getCullFaceModeFromName s outC).1 = true →
        getCullFaceModeName (getCullFaceModeFromName s outC).2 = s) ∧
    (getOpacityMapModeFromName "" outO).1 = false ∧
    (getOpacityMapModeFromName "opacity_map_mask" outO).1 = false ∧
    (getCullFaceModeFromName "" outC).1 = false ∧
    (getCullFaceModeFromName "Cull_Back" outC).1 = false := by
  rw [getOpacityMapModeFromName_unroll, getCullFaceModeFromName_unroll]
  refine ⟨?_, ?_, ?_, ?_, ?_, ?_, ?_, ?_⟩
  · split_ifs <;> simp_all
  · split_ifs <;> simp_all [getOpacityMapModeName, OpacityMapMode.toInt]
  · split_ifs <;> simp_all
  · split_ifs <;> simp_all [getCullFaceModeName, CullFaceMode.toInt]
  · rw [getOpacityMapModeFromName_unroll]; decide
  · rw [getOpacityMapModeFromName_unroll]; decide
  · rw [getCullFaceModeFromName_unroll]; decide
  · rw [getCullFaceModeFromName_unroll]; decide

/-! ## Key bits -/

/-- Reading a bit after a write: the written value at the written bit, the old value at
every other bit. -/
@[simp] theorem MaterialKey.test_set (k : MaterialKey) (bit b : FlagBit) (value : Bool) :
    (k.set bit value).test b = if b = bit then value else k.test b := rfl

/-- Two keys with the same bits are the same key. -/
theorem MaterialKey.ext_test {k1 k2 : MaterialKey} (h : ∀ b, k1.test b = k2.test b) :
    k1 = k2 := by
  cases k1; cases k2
  congr
  funext b
  exact h b

/-! ## Opacity-map classification -/

/-- The key that `resetOpacityMap` leaves when no explicit mode is set, by cases on the
ALBEDO map. -/
theorem Material.resetOpacityMap_bits (m : Material) (h : m._key.isOpacityMapMode = false) :
    ((resetOpacityMap m).2._key.isOpacityMaskMap = true ↔
        ∃ tex, m.AlbedoAlphaSource tex ∧ tex.getUsage.isAlpha = true ∧
          tex.getUsage.isAlphaMask = true) ∧
    ((resetOpacityMap m).2._key.isTranslucentMap = true ↔
        ∃ tex, m.AlbedoAlphaSource tex ∧ tex.getUsage.isAlpha = true ∧
          tex.getUsage.isAlphaMask = false) := by
  unfold resetOpacityMap AlbedoAlphaSource
  simp only [h, Bool.false_eq_true, if_false]
  cases hm : m.getTextureMap .ALBEDO_MAP with
  | none =>
    simp [MaterialKey.isOpacityMaskMap, MaterialKey.isTranslucentMap,
      MaterialKey.setOpacityMaskMap, MaterialKey.setTranslucentMap, apply_ite]
  | some tm =>
    cases htex : tm.getTextureView._texture with
    | none =>
      simp [htex, TextureView.isValid, MaterialKey.isOpacityMaskMap, MaterialKey.isTranslucentMap,
        MaterialKey.setOpacityMaskMap, MaterialKey.setTranslucentMap, apply_ite]
    | some tex =>
      cases h1 : tm.useAlphaChannel <;> cases h2 : tm.isDefined <;>
        cases h3 : tex.getUsage.isAlpha <;> cases h4 : tex.getUsage.isAlphaMask <;>
        simp [htex, h1, h2, h3, h4, TextureView.isValid, MaterialKey.isOpacityMaskMap,
          MaterialKey.isTranslucentMap, MaterialKey.setOpacityMaskMap,
          MaterialKey.setTranslucentMap, apply_ite]

/-- With an explicit mode in the key, `resetOpacityMap` returns false and changes nothing. -/
theorem Material.resetOpacityMap_of_explicit (m : Material)
    (h : m._key.isOpacityMapMode = true) : resetOpacityMap m = (false, m) := by
  simp [resetOpacityMap, h]

/-- The two paths of `resetOpacityMap`: nothing at all under an explicit mode, else the
inspected key and the comparison of the derived modes before and after. -/
theorem Material.resetOpacityMap_eq (m : Material) :
    resetOpacityMap m =
      if m._key.isOpacityMapMode = true then (false, m)
      else (decide (m._key.getOpacityMapMode ≠ m.inspectedKey.getOpacityMapMode),
            { m with _key := m.inspectedKey }) := by
  unfold resetOpacityMap
  by_cases h : m._key.isOpacityMapMode = true
  · simp [h]
  · have pair : ∀ (c : Prop) [Decidable c] (x : Material),
        (if c then (true, x) else (false, x)) = (decide c, x) := by
      intro c _ x
      by_cases hc : c <;> simp [hc]
    simp only [h, if_false, Bool.false_eq_true]
    exact pair _ _

/-- The only member that `resetOpacityMap` writes is the key. -/
theorem Material.resetOpacityMap_snd (m : Material) :
    (resetOpacityMap m).2 = { m with _key := (resetOpacityMap m).2._key } := by
  rw [resetOpacityMap_eq]
  split_ifs <;> rfl

/-- The inspection writes at most the opacity-mask and translucent-map bits. -/
theorem Material.inspectedKey_test_other (m : Material) (b : FlagBit)
    (hmask : b ≠ .OPACITY_MASK_MAP_BIT) (htrans : b ≠ .OPACITY_TRANSLUCENT_MAP_BIT) :
    m.inspectedKey.test b = m._key.test b := by
  unfold inspectedKey
  simp only [MaterialKey.setOpacityMaskMap, MaterialKey.setTranslucentMap]
  split
  · split
    · split
      · split_ifs <;> simp [hmask, htrans]
      · simp [hmask, htrans]
    · simp [hmask, htrans]
  · simp [hmask, htrans]

/-- In the key, `resetOpacityMap` writes at most the opacity-mask and translucent-map bits. -/
theorem Material.resetOpacityMap_test_other (m : Material) (b : FlagBit)
    (hmask : b ≠ .OPACITY_MASK_MAP_BIT) (htrans : b ≠ .OPACITY_TRANSLUCENT_MAP_BIT) :
    (resetOpacityMap m).2._key.test b = m._key.test b := by
  rw [resetOpacityMap_eq]
  split_ifs
  · rfl
  · exact inspectedKey_test_other m b hmask htrans

/-! ## resetOpacityMap: members it leaves alone -/

/-- Frame of `resetOpacityMap`: member `_name` is not written. -/
@[simp] theorem Material.resetOpacityMap_name (m : Material) :
    (resetOpacityMap m).2._name = m._name := by
  rw [resetOpacityMap_snd]

/-- Frame of `resetOpacityMap`: member `_model` is not written. -/
@[simp] theorem Material.resetOpacityMap_model (m : Material) :
    (resetOpacityMap m).2._model = m._model := by
  rw [resetOpacityMap_snd]

/-- Frame of `resetOpacityMap`: member `_layers` is not written. -/
@[simp] theorem Material.resetOpacityMap_layers (m : Material) :
    (resetOpacityMap m).2._layers = m._layers := by
  rw [resetOpacityMap_snd]

/-- Frame of `resetOpacityMap`: member `_emissive` is not written. -/
@[simp] theorem Material.resetOpacityMap_emissive (m : Material) :
    (resetOpacityMap m).2._emissive = m._emissive := by
  rw [resetOpacityMap_snd]

/-- Frame of `resetOpacityMap`: member `_opacity` is not written. -/
@[simp] theorem Material.resetOpacityMap_opacity (m : Material) :
    (resetOpacityMap m).2._opacity = m._opacity := by
  rw [resetOpacityMap_snd]

/-- Frame of `resetOpacityMap`: member `_albedo` is not written. -/
@[simp] theorem Material.resetOpacityMap_albedo (m : Material) :
    (resetOpacityMap m).2._albedo = m._albedo := by
  rw [resetOpacityMap_snd]

/-- Frame of `resetOpacityMap`: member `_roughness` is not written. -/
@[simp] theorem Material.resetOpacityMap_roughness (m : Material) :
    (resetOpacityMap m).2._roughness = m._roughness := by
  rw [resetOpacityMap_snd]

/-- Frame of `resetOpacityMap`: member `_metallic` is not written. -/
@[simp] theorem Material.resetOpacityMap_metallic (m : Material) :
    (resetOpacityMap m).2._metallic = m._metallic := by
  rw [resetOpacityMap_snd]

/-- Frame of `resetOpacityMap`: member `_scattering` is not written. -/
@[simp] theorem Material.resetOpacityMap_scattering (m : Material) :
    (resetOpacityMap m).2._scattering = m._scattering := by
  rw [resetOpacityMap_snd]

/-- Frame of `resetOpacityMap`: member `_opacityCutoff` is not written. -/
@[simp] theorem Material.resetOpacityMap_opacityCutoff (m : Material) :
    (resetOpacityMap m).2._opacityCutoff = m._opacityCutoff := by
  rw [resetOpacityMap_snd]

/-- Frame of `resetOpacityMap`: member `_texcoordTransforms` is not written. -/
@[simp] theorem Material.resetOpacityMap_texcoordTransforms (m : Material) :
    (resetOpacityMap m).2._texcoordTransforms = m._texcoordTransforms := by
  rw [resetOpacityMap_snd]

/-- Frame of `resetOpacityMap`: member `_lightmapParams` is not written. -/
@[simp] theorem Material.resetOpacityMap_lightmapParams (m : Material) :
    (resetOpacityMap m).2._lightmapParams = m._lightmapParams := by
  rw [resetOpacityMap_snd]

/-- Frame of `resetOpacityMap`: member `_materialParams` is not written. -/
@[simp] theorem Material.resetOpacityMap_materialParams (m : Material) :
    (resetOpacityMap m).2._materialParams = m._materialParams := by
  rw [resetOpacityMap_snd]

/-- Frame of `resetOpacityMap`: member `_cullFaceMode` is not written. -/
@[simp] theorem Material.resetOpacityMap_cullFaceMode (m : Material) :
    (resetOpacityMap m).2._cullFaceMode = m._cullFaceMode := by
  rw [resetOpacityMap_snd]

/-- Frame of `resetOpacityMap`: member `_textureMaps` is not written. -/
@[simp] theorem Material.resetOpacityMap_textureMaps (m : Material) :
    (resetOpacityMap m).2._textureMaps = m._textureMaps := by
  rw [resetOpacityMap_snd]

/-- Frame of `resetOpacityMap`: member `_samplers` is not written. -/
@[simp] theorem Material.resetOpacityMap_samplers (m : Material) :
    (resetOpacityMap m).2._samplers = m._samplers := by
  rw [resetOpacityMap_snd]

/-- Frame of `resetOpacityMap`: member `_texCoordSets` is not written. -/
@[simp] theorem Material.resetOpacityMap_texCoordSets (m : Material) :
    (resetOpacityMap m).2._texCoordSets = m._texCoordSets := by
  rw [resetOpacityMap_snd]

/-- Frame of `resetOpacityMap`: member `_defaultFallthrough` is not written. -/
@[simp] theorem Material.resetOpacityMap_defaultFallthrough (m : Material) :
    (resetOpacityMap m).2._defaultFallthrough = m._defaultFallthrough := by
  rw [resetOpacityMap_snd]

/-- Frame of `resetOpacityMap`: member `_propertyFallthroughs` is not written. -/
@[simp] theorem Material.resetOpacityMap_propertyFallthroughs (m : Material) :
    (resetOpacityMap m).2._propertyFallthroughs = m._propertyFallthroughs := by
  rw [resetOpacityMap_snd]

/-! ## setTextureMap: what it writes -/

/-- The texture table after `setTextureMap`: the entry of the channel is written (non-null
handle) or erased (null handle), the other entries are kept. -/
theorem Material.setTextureMap_textureMaps (m : Material) (c : MapChannel)
    (t : TextureMapPointer) :
    (m.setTextureMap c t)._textureMaps =
      if t.isSome then m._textureMaps.assign c t else m._textureMaps.erase c := by
  unfold setTextureMap
  cases t <;> simp only [Option.isSome_none, Option.isSome_some, Bool.false_eq_true, if_false,
    if_true] <;> split_ifs <;> simp

/-- The key after `setTextureMap` on the ALBEDO channel: the presence bit is written, then
`resetOpacityMap` runs on the updated material. -/
theorem Material.setTextureMap_key_albedo (m : Material) (t : TextureMapPointer) :
    (m.setTextureMap .ALBEDO_MAP t)._key = (resetOpacityMap (m.withMap .ALBEDO_MAP t)).2._key := by
  unfold setTextureMap withMap
  cases t <;> simp

/-- The key after `setTextureMap` on another channel: only the presence bit is written. -/
theorem Material.setTextureMap_key_other (m : Material) (c : MapChannel)
    (t : TextureMapPointer) (hc : c ≠ .ALBEDO_MAP) :
    (m.setTextureMap c t)._key = m._key.setMapChannel c t.isSome := by
  unfold setTextureMap
  cases t <;> simp only [Option.isSome_none, Option.isSome_some, Bool.false_eq_true, if_false,
    if_true, hc] <;> split_ifs <;> rfl

/-- The key after the first statement of `setTextureMap`. -/
theorem Material.withMap_key (m : Material) (c : MapChannel) (t : TextureMapPointer) :
    (m.withMap c t)._key = m._key.setMapChannel c t.isSome := by
  unfold withMap
  cases t <;> rfl

/-- Under an explicit mode, `setTextureMap` writes the presence bit of its channel and no
other key bit, on every channel. -/
theorem Material.setTextureMap_key_of_explicit (m : Material) (c : MapChannel)
    (t : TextureMapPointer) (h : m._key.isOpacityMapMode = true) :
    (m.setTextureMap c t)._key = m._key.setMapChannel c t.isSome := by
  by_cases hc : c = .ALBEDO_MAP
  · subst hc
    have hexp : (m.withMap .ALBEDO_MAP t)._key.isOpacityMapMode = true := by
      rw [withMap_key]
      simpa [MaterialKey.isOpacityMapMode, MaterialKey.setMapChannel] using h
    rw [setTextureMap_key_albedo, resetOpacityMap_of_explicit _ hexp, withMap_key]
  · exact setTextureMap_key_other m c t hc

/-- The presence bits after `setTextureMap`, on every channel and under every mode. -/
theorem Material.setTextureMap_isMapChannel (m : Material) (c d : MapChannel)
    (t : TextureMapPointer) :
    (m.setTextureMap c t)._key.isMapChannel d =
      if d = c then t.isSome else m._key.isMapChannel d := by
  have hbit : (m._key.setMapChannel c t.isSome).isMapChannel d =
      if d = c then t.isSome else m._key.isMapChannel d := by
    simp [MaterialKey.isMapChannel, MaterialKey.setMapChannel]
  by_cases hc : c = .ALBEDO_MAP
  · subst hc
    rw [setTextureMap_key_albedo, ← hbit, ← withMap_key]
    exact resetOpacityMap_test_other _ _ (by simp) (by simp)
  · rw [setTextureMap_key_other m c t hc, hbit]

/-- The lookup after `setTextureMap`: the handle just passed on the written channel, the old
result on every other channel. -/
theorem Material.getTextureMap_setTextureMap (m : Material) (c d : MapChannel)
    (t : TextureMapPointer) :
    (m.setTextureMap c t).getTextureMap d = if d = c then t else m.getTextureMap d := by
  unfold getTextureMap ChannelTable.find
  rw [setTextureMap_textureMaps]
  cases t <;> by_cases hd : d = c <;> simp [ChannelTable.assign, ChannelTable.erase, hd]

/-- An explicit mode and the mode it spells both survive one `setTextureMap`. -/
theorem Material.setTextureMap_keeps_explicit (m : Material) (c : MapChannel)
    (t : TextureMapPointer) (mode : OpacityMapMode)
    (h : m._key.isOpacityMapMode = true ∧ m.getOpacityMapMode = mode) :
    (m.setTextureMap c t)._key.isOpacityMapMode = true ∧
      (m.setTextureMap c t).getOpacityMapMode = mode := by
  obtain ⟨hexp, hmode⟩ := h
  unfold getOpacityMapMode at hmode ⊢
  rw [setTextureMap_key_of_explicit m c t hexp]
  constructor
  · simpa [MaterialKey.isOpacityMapMode, MaterialKey.setMapChannel] using hexp
  · simpa [MaterialKey.getOpacityMapMode, MaterialKey.isOpacityMaskMap,
      MaterialKey.isTranslucentMap, MaterialKey.setMapChannel] using hmode

/-- An explicit mode and the mode it spells survive any sequence of `setTextureMap` calls. -/
theorem Material.setTextureMaps_keep_explicit (calls : List (MapChannel × TextureMapPointer))
    (m : Material) (mode : OpacityMapMode)
    (h : m._key.isOpacityMapMode = true ∧ m.getOpacityMapMode = mode) :
    (calls.foldl (fun s call => s.setTextureMap call.1 call.2) m)._key.isOpacityMapMode = true ∧
      (calls.foldl (fun s call => s.setTextureMap call.1 call.2) m).getOpacityMapMode = mode := by
  induction calls generalizing m with
  | nil => exact h
  | cons call rest ih =>
    rw [List.foldl_cons]
    exact ih _ (setTextureMap_keeps_explicit m call.1 call.2 mode h)

/-- State right after `setOpacityMapMode`: the mode is explicit and is the mode read back. -/
theorem Material.setOpacityMapMode_explicit (m : Material) (mode : OpacityMapMode) :
    (m.setOpacityMapMode mode)._key.isOpacityMapMode = true ∧
      (m.setOpacityMapMode mode).getOpacityMapMode = mode := by
  cases mode <;>
    simp [setOpacityMapMode, getOpacityMapMode, MaterialKey.setOpacityMapMode,
      MaterialKey.isOpacityMapMode, MaterialKey.getOpacityMapMode,
      MaterialKey.isOpacityMaskMap, MaterialKey.isTranslucentMap]

/-! ## Opacity-map mode and texture maps: the claims -/

/-- C1: when no explicit opacity-map mode is set, after `resetOpacityMap` the opacity-mask bit
is set iff the ALBEDO map is present, uses alpha, is defined, has a valid view and its
texture usage is alpha and alpha-mask; the translucent-map bit is set iff the same map
conditions hold with a usage that is alpha and not alpha-mask; in every other case both
bits are clear and the derived mode is OPAQUE. -/
theorem Material.resetOpacityMap_classification (m : Material)
    (h : m._key.isOpacityMapMode = false) :
    ((resetOpacityMap m).2._key.isOpacityMaskMap = true ↔
        ∃ tex, m.AlbedoAlphaSource tex ∧ tex.getUsage.isAlpha = true ∧
          tex.getUsage.isAlphaMask = true) ∧
    ((resetOpacityMap m).2._key.isTranslucentMap = true ↔
        ∃ tex, m.AlbedoAlphaSource tex ∧ tex.getUsage.isAlpha = true ∧
          tex.getUsage.isAlphaMask = false) ∧
    ((¬ ∃ tex, m.AlbedoAlphaSource tex ∧ tex.getUsage.isAlpha = true) →
        (resetOpacityMap m).2._key.isOpacityMaskMap = false ∧
        (resetOpacityMap m).2._key.isTranslucentMap = false ∧
        (resetOpacityMap m).2.getOpacityMapMode = .OPACITY_MAP_OPAQUE) := by
  obtain ⟨hmask, htrans⟩ := resetOpacityMap_bits m h
  refine ⟨hmask, htrans, ?_⟩
  intro hno
  have h1 : (resetOpacityMap m).2._key.isOpacityMaskMap = false := by
    rw [← Bool.not_eq_true, hmask]
    rintro ⟨tex, hsrc, ha, _⟩
    exact hno ⟨tex, hsrc, ha⟩
  have h2 : (resetOpacityMap m).2._key.isTranslucentMap = false := by
    rw [← Bool.not_eq_true, htrans]
    rintro ⟨tex, hsrc, ha, _⟩
    exact hno ⟨tex, hsrc, ha⟩
  refine ⟨h1, h2, ?_⟩
  simp [getOpacityMapMode, MaterialKey.getOpacityMapMode, h1, h2]

/-- Witness of C1 on a material whose ALBEDO map is an alpha-mask texture. -/
theorem Material.resetOpacityMap_classification_witness :
    sampleMaskedMaterial._key.isOpacityMapMode = false ∧
    (((resetOpacityMap sampleMaskedMaterial).2._key.isOpacityMaskMap = true ↔
        ∃ tex, sampleMaskedMaterial.AlbedoAlphaSource tex ∧ tex.getUsage.isAlpha = true ∧
          tex.getUsage.isAlphaMask = true) ∧
    ((resetOpacityMap sampleMaskedMaterial).2._key.isTranslucentMap = true ↔
        ∃ tex, sampleMaskedMaterial.AlbedoAlphaSource tex ∧ tex.getUsage.isAlpha = true ∧
          tex.getUsage.isAlphaMask = false) ∧
    ((¬ ∃ tex, sampleMaskedMaterial.AlbedoAlphaSource tex ∧ tex.getUsage.isAlpha = true) →
        (resetOpacityMap sampleMaskedMaterial).2._key.isOpacityMaskMap = false ∧
        (resetOpacityMap sampleMaskedMaterial).2._key.isTranslucentMap = false ∧
        (resetOpacityMap sampleMaskedMaterial).2.getOpacityMapMode = .OPACITY_MAP_OPAQUE)) :=
  ⟨by decide, Material.resetOpacityMap_classification sampleMaskedMaterial (by decide)⟩

/-- C2: with an explicit opacity-map mode set, `resetOpacityMap` returns false and leaves
every key bit, and the whole material, unchanged, whatever the texture table holds. -/
theorem Material.resetOpacityMap_explicit_noop (m : Material)
    (h : m._key.isOpacityMapMode = true) :
    (resetOpacityMap m).1 = false ∧
    (∀ b : FlagBit, (resetOpacityMap m).2._key.test b = m._key.test b) ∧
    (resetOpacityMap m).2 = m := by
  rw [resetOpacityMap_of_explicit m h]
  exact ⟨rfl, fun _ => rfl, rfl⟩

/-- Witness of C2 on a material with explicit mode OPAQUE and a blending ALBEDO texture. -/
theorem Material.resetOpacityMap_explicit_noop_witness :
    sampleExplicitMaterial._key.isOpacityMapMode = true ∧
    ((resetOpacityMap sampleExplicitMaterial).1 = false ∧
    (∀ b : FlagBit, (resetOpacityMap sampleExplicitMaterial).2._key.test b
        = sampleExplicitMaterial._key.test b) ∧
    (resetOpacityMap sampleExplicitMaterial).2 = sampleExplicitMaterial) :=
  ⟨by decide, Material.resetOpacityMap_explicit_noop sampleExplicitMaterial (by decide)⟩

/-- C3: after `setOpacityMapMode(mode)`, `getOpacityMapMode()` returns `mode`, and it still
returns `mode` after any finite sequence of `setTextureMap` calls, on any channels and with
any handles (null ones included). -/
theorem Material.explicit_mode_is_permanent (m : Material) (mode : OpacityMapMode)
    (calls : List (MapChannel × TextureMapPointer)) :
    (m.setOpacityMapMode mode).getOpacityMapMode = mode ∧
    (calls.foldl (fun s call => s.setTextureMap call.1 call.2)
      (m.setOpacityMapMode mode)).getOpacityMapMode = mode :=
  ⟨(setOpacityMapMode_explicit m mode).2,
    (setTextureMaps_keep_explicit calls _ mode (setOpacityMapMode_explicit m mode)).2⟩

/-- C4: `setTextureMap(c, t)` with a non-null handle sets the presence bit of `c` and makes
`getTextureMap(c)` return the handle; with the null handle it clears the bit and makes
`getTextureMap(c)` return null; for every other channel the presence bit and the lookup
are unchanged; a fresh material returns null on every channel. -/
theorem Material.setTextureMap_getTextureMap (m : Material) (c : MapChannel) :
    (∀ tm : TextureMap,
      (m.setTextureMap c (some tm))._key.isMapChannel c = true ∧
      (m.setTextureMap c (some tm)).getTextureMap c = some tm) ∧
    ((m.setTextureMap c none)._key.isMapChannel c = false ∧
      (m.setTextureMap c none).getTextureMap c = none) ∧
    (∀ (t : TextureMapPointer) (d : MapChannel), d ≠ c →
      (m.setTextureMap c t)._key.isMapChannel d = m._key.isMapChannel d ∧
      (m.setTextureMap c t).getTextureMap d = m.getTextureMap d) ∧
    fresh.getTextureMap c = none := by
  refine ⟨?_, ?_, ?_, rfl⟩
  · intro tm
    simp [setTextureMap_isMapChannel, getTextureMap_setTextureMap]
  · simp [setTextureMap_isMapChannel, getTextureMap_setTextureMap]
  · intro t d hd
    simp [setTextureMap_isMapChannel, getTextureMap_setTextureMap, hd]

/-! ## Scalar setters -/

/-- The expression `std::min(1.0f, std::max(r, 0.0f))` is the clamp of `r` to `[0, 1]`. -/
theorem F32.stdMin_stdMax_eq_clamp01 (r : F32) (h : r ≠ .nan) :
    F32.stdMin (.fin 1) (F32.stdMax r (.fin 0)) = F32.clamp01 r := by
  rcases r with _ | _ | q | _
  · exact absurd rfl h
  · simp [F32.stdMin, F32.stdMax, F32.lt, F32.clamp01]
  · simp only [F32.stdMin, F32.stdMax, F32.lt, F32.clamp01]
    by_cases h0 : q < 0
    · have h1 : max q 0 = 0 := max_eq_right h0.le
      simp [h0, h1]
    · have h0' : 0 ≤ q := not_lt.mp h0
      by_cases h1 : q < 1
      · simp [h0, h1, max_eq_left h0', min_eq_right h1.le]
      · have h1' : (1 : ℚ) ≤ q := not_lt.mp h1
        simp [h0, h1, max_eq_left h0', min_eq_left h1']
  · simp [F32.stdMin, F32.stdMax, F32.lt, F32.clamp01]

/-- The expression `glm::clamp(v, 0.0f, 1.0f)` is the clamp of `v` to `[0, 1]`. -/
theorem F32.glmClamp_eq_clamp01 (v : F32) (h : v ≠ .nan) :
    F32.glmClamp v (.fin 0) (.fin 1) = F32.clamp01 v := by
  rcases v with _ | _ | q | _
  · exact absurd rfl h
  · simp [F32.glmClamp, F32.glmMin, F32.glmMax, F32.lt, F32.clamp01]
  · simp only [F32.glmClamp, F32.glmMin, F32.glmMax, F32.lt, F32.clamp01]
    by_cases h0 : q < 0
    · have h1 : max q 0 = 0 := max_eq_right h0.le
      simp [h0, h1]
    · have h0' : 0 ≤ q := not_lt.mp h0
      by_cases h1 : 1 < q
      · simp [h0, h1, max_eq_left h0', min_eq_left h1.le]
      · have h1' : q ≤ 1 := not_lt.mp h1
        simp [h0, h1, max_eq_left h0', min_eq_right h1']
  · simp [F32.glmClamp, F32.glmMin, F32.glmMax, F32.lt, F32.clamp01]

/-- The clamp of a non-NaN value is a finite value between 0 and 1. -/
theorem F32.clamp01_bounds (v : F32) (h : v ≠ .nan) :
    ∃ q : ℚ, F32.clamp01 v = .fin q ∧ 0 ≤ q ∧ q ≤ 1 := by
  rcases v with _ | _ | q | _
  · exact absurd rfl h
  · exact ⟨0, rfl, le_refl _, zero_le_one⟩
  · exact ⟨min 1 (max q 0), rfl, le_min zero_le_one (le_max_right _ _), min_le_left _ _⟩
  · exact ⟨1, rfl, zero_le_one, le_refl _⟩

/-- C9: for every non-NaN `r`, `setRoughness(r)` stores `min(1, max(r, 0))`, a value
between 0 and 1, and the glossy bit equals `stored < 1`; so the glossy bit is set
iff `r < 1`. -/
theorem Material.setRoughness_clamps (m : Material) (r : F32) (h : r ≠ .nan) :
    (m.setRoughness r)._roughness = F32.clamp01 r ∧
    F32.le (.fin 0) (m.setRoughness r)._roughness = true ∧
    F32.le (m.setRoughness r)._roughness (.fin 1) = true ∧
    (m.setRoughness r)._key.isGlossy = F32.lt (m.setRoughness r)._roughness (.fin 1) ∧
    ((m.setRoughness r)._key.isGlossy = true ↔ F32.lt r (.fin 1) = true) := by
  have hs : (m.setRoughness r)._roughness = F32.clamp01 r := by
    simp [setRoughness, F32.stdMin_stdMax_eq_clamp01 r h]
  have hg : (m.setRoughness r)._key.isGlossy
      = F32.lt (m.setRoughness r)._roughness (.fin 1) := by
    simp [setRoughness, MaterialKey.isGlossy, MaterialKey.setGlossy]
  obtain ⟨q, hq, hq0, hq1⟩ := F32.clamp01_bounds r h
  refine ⟨hs, ?_, ?_, hg, ?_⟩
  · rw [hs, hq]
    simpa [F32.le] using hq0
  · rw [hs, hq]
    simpa [F32.le] using hq1
  · rw [hg, hs]
    rcases r with _ | _ | q | _
    · exact absurd rfl h
    · simp [F32.clamp01, F32.lt]
    · simp [F32.clamp01, F32.lt]
    · simp [F32.clamp01, F32.lt]

/-- Witness of C9 at the out-of-range roughness 2. -/
theorem Material.setRoughness_clamps_witness :
    F32.fin 2 ≠ F32.nan ∧
    ((fresh.setRoughness (.fin 2))._roughness = F32.clamp01 (.fin 2) ∧
    F32.le (.fin 0) (fresh.setRoughness (.fin 2))._roughness = true ∧
    F32.le (fresh.setRoughness (.fin 2))._roughness (.fin 1) = true ∧
    (fresh.setRoughness (.fin 2))._key.isGlossy
      = F32.lt (fresh.setRoughness (.fin 2))._roughness (.fin 1) ∧
    ((fresh.setRoughness (.fin 2))._key.isGlossy = true ↔ F32.lt (.fin 2) (.fin 1) = true)) :=
  ⟨by simp, Material.setRoughness_clamps fresh (.fin 2) (by simp)⟩

/-- C10: for every non-NaN `v`, `setMetallic`, `setScattering` and `setOpacityCutoff` store
the clamp of `v` to `[0, 1]`; the metallic and scattering bits are set iff the stored value
is `> 0`, the non-default-cutoff bit iff the stored value differs from 0.5, so that it is
set for every `v <= 0` and every `v >= 1` and cleared for `v == 0.5`. The setters are total
functions: no input makes them fail. -/
theorem Material.scalar_setters_clamp (m : Material) (v : F32) (h : v ≠ .nan) :
    ((m.setMetallic v)._metallic = F32.clamp01 v ∧
      (m.setMetallic v)._key.isMetallic = F32.gt (m.setMetallic v)._metallic (.fin 0)) ∧
    ((m.setScattering v)._scattering = F32.clamp01 v ∧
      (m.setScattering v)._key.isScattering
        = F32.gt (m.setScattering v)._scattering (.fin 0)) ∧
    ((m.setOpacityCutoff v)._opacityCutoff = F32.clamp01 v ∧
      ((m.setOpacityCutoff v)._key.isOpacityCutoff = true ↔
        (m.setOpacityCutoff v)._opacityCutoff ≠ .fin (1 / 2)) ∧
      (F32.le v (.fin 0) = true → (m.setOpacityCutoff v)._key.isOpacityCutoff = true) ∧
      (F32.le (.fin 1) v = true → (m.setOpacityCutoff v)._key.isOpacityCutoff = true) ∧
      (v = .fin (1 / 2) → (m.setOpacityCutoff v)._key.isOpacityCutoff = false)) := by
  have hc := F32.glmClamp_eq_clamp01 v h
  obtain ⟨q, hq, hq0, hq1⟩ := F32.clamp01_bounds v h
  refine ⟨⟨?_, ?_⟩, ⟨?_, ?_⟩, ?_, ?_, ?_, ?_, ?_⟩
  · simp [setMetallic, hc]
  · simp [setMetallic, MaterialKey.isMetallic, MaterialKey.setMetallic]
  · simp [setScattering, hc]
  · simp [setScattering, MaterialKey.isScattering, MaterialKey.setScattering]
  · simp [setOpacityCutoff, hc]
  · simp [setOpacityCutoff, MaterialKey.isOpacityCutoff, MaterialKey.setOpacityCutoff, hc, hq,
      DEFAULT_OPACITY_CUTOFF, F32.ne]
  · intro hv
    rcases v with _ | _ | x | _
    · exact absurd rfl h
    · simp [setOpacityCutoff, MaterialKey.isOpacityCutoff, MaterialKey.setOpacityCutoff, hc,
        F32.clamp01, DEFAULT_OPACITY_CUTOFF, F32.ne]
    · have hx : x ≤ 0 := by simpa [F32.le] using hv
      simp [setOpacityCutoff, MaterialKey.isOpacityCutoff, MaterialKey.setOpacityCutoff, hc,
        F32.clamp01, DEFAULT_OPACITY_CUTOFF, F32.ne, max_eq_right hx]
    · simp [F32.le] at hv
  · intro hv
    rcases v with _ | _ | x | _
    · exact absurd rfl h
    · simp [F32.le] at hv
    · have hx : 1 ≤ x := by simpa [F32.le] using hv
      have hx0 : 0 ≤ x := le_trans zero_le_one hx
      simp [setOpacityCutoff, MaterialKey.isOpacityCutoff, MaterialKey.setOpacityCutoff, hc,
        F32.clamp01, DEFAULT_OPACITY_CUTOFF, F32.ne, max_eq_left hx0, min_eq_left hx]
    · simp [setOpacityCutoff, MaterialKey.isOpacityCutoff, MaterialKey.setOpacityCutoff, hc,
        F32.clamp01, DEFAULT_OPACITY_CUTOFF, F32.ne]
  · intro hv
    subst hv
    have h1 : max (1 / 2 : ℚ) 0 = 1 / 2 := max_eq_left (by norm_num)
    have h2 : min (1 : ℚ) (1 / 2) = 1 / 2 := min_eq_right (by norm_num)
    have hst : (F32.fin (1 / 2)).glmClamp (.fin 0) (.fin 1) = .fin (1 / 2) := by
      rw [hc]
      simp only [F32.clamp01, h1, h2]
    simp only [setOpacityCutoff, MaterialKey.isOpacityCutoff, MaterialKey.setOpacityCutoff,
      MaterialKey.test_set, hst, DEFAULT_OPACITY_CUTOFF]
    simp [F32.ne]

/-- Witness of C10 at the out-of-range value 3/2. -/
theorem Material.scalar_setters_clamp_witness :
    F32.fin (3 / 2) ≠ F32.nan ∧
    (((fresh.setMetallic (.fin (3 / 2)))._metallic = F32.clamp01 (.fin (3 / 2)) ∧
      (fresh.setMetallic (.fin (3 / 2)))._key.isMetallic
        = F32.gt (fresh.setMetallic (.fin (3 / 2)))._metallic (.fin 0)) ∧
    ((fresh.setScattering (.fin (3 / 2)))._scattering = F32.clamp01 (.fin (3 / 2)) ∧
      (fresh.setScattering (.fin (3 / 2)))._key.isScattering
        = F32.gt (fresh.setScattering (.fin (3 / 2)))._scattering (.fin 0)) ∧
    ((fresh.setOpacityCutoff (.fin (3 / 2)))._opacityCutoff = F32.clamp01 (.fin (3 / 2)) ∧
      ((fresh.setOpacityCutoff (.fin (3 / 2)))._key.isOpacityCutoff = true ↔
        (fresh.setOpacityCutoff (.fin (3 / 2)))._opacityCutoff ≠ .fin (1 / 2)) ∧
      (F32.le (.fin (3 / 2)) (.fin 0) = true →
        (fresh.setOpacityCutoff (.fin (3 / 2)))._key.isOpacityCutoff = true) ∧
      (F32.le (.fin 1) (.fin (3 / 2)) = true →
        (fresh.setOpacityCutoff (.fin (3 / 2)))._key.isOpacityCutoff = true) ∧
      (F32.fin (3 / 2) = .fin (1 / 2) →
        (fresh.setOpacityCutoff (.fin (3 / 2)))._key.isOpacityCutoff = false))) :=
  ⟨by simp, Material.scalar_setters_clamp fresh (.fin (3 / 2)) (by simp)⟩

/-- C7, as stated, fails: with a conversion that rounds the smallest positive float to zero,
`setEmissive(c, true)` on the colour `(2^-149, 0, 0)` sets the emissive bit although no
channel of the stored colour is strictly positive. -/
theorem Material.setEmissive_bit_not_from_stored :
    ¬ ((setEmissive sampleUnderflowingConversion fresh sampleTinyRed true)._key.isEmissive = true ↔
      Vec3.anyGreaterThan
        (setEmissive sampleUnderflowingConversion fresh sampleTinyRed true)._emissive
        (Vec3.splat (.fin 0)) = true) := by
  have hbit : (setEmissive sampleUnderflowingConversion fresh sampleTinyRed true)._key.isEmissive
      = true := by
    simp [setEmissive, MaterialKey.isEmissive, MaterialKey.setEmissive, Vec3.anyGreaterThan,
      Vec3.splat, sampleTinyRed, F32.gt, F32.lt]
  have hst : Vec3.anyGreaterThan
      (setEmissive sampleUnderflowingConversion fresh sampleTinyRed true)._emissive
      (Vec3.splat (.fin 0)) = false := by
    have hx : F32.flushTiny (.fin (1 / 2 ^ 149)) = .fin 0 := by
      have : |(1 / 2 ^ 149 : ℚ)| < 1 / 2 ^ 126 := by
        rw [abs_of_pos (by positivity)]
        norm_num
      simp only [F32.flushTiny, this, if_true]
    have h0 : F32.flushTiny (.fin 0) = .fin 0 := by
      simp [F32.flushTiny]
    simp only [setEmissive, sampleUnderflowingConversion, sampleTinyRed, if_true, hx, h0]
    simp [Vec3.anyGreaterThan, Vec3.splat, F32.gt, F32.lt]
  rw [hbit, hst]
  simp

/-- C7, amended: `setEmissive(c, isSRGB)` stores the converted colour when `isSRGB` and `c`
otherwise, and sets the emissive bit iff some channel of the colour `c` as passed is
strictly positive; without conversion that is the stored colour. -/
theorem Material.setEmissive_bit_from_input (sRGBToLinearVec3 : Vec3 → Vec3) (m : Material)
    (c : Vec3) (isSRGB : Bool) :
    (setEmissive sRGBToLinearVec3 m c isSRGB)._emissive
      = (if isSRGB then sRGBToLinearVec3 c else c) ∧
    ((setEmissive sRGBToLinearVec3 m c isSRGB)._key.isEmissive = true ↔
      (F32.gt c.x (.fin 0) = true ∨ F32.gt c.y (.fin 0) = true ∨ F32.gt c.z (.fin 0) = true)) ∧
    ((setEmissive sRGBToLinearVec3 m c false)._key.isEmissive = true ↔
      Vec3.anyGreaterThan (setEmissive sRGBToLinearVec3 m c false)._emissive
        (Vec3.splat (.fin 0)) = true) := by
  refine ⟨rfl, ?_, ?_⟩
  · simp [setEmissive, MaterialKey.isEmissive, MaterialKey.setEmissive, Vec3.anyGreaterThan,
      Vec3.splat, or_assoc]
  · simp [setEmissive, MaterialKey.isEmissive, MaterialKey.setEmissive]

/-- C8: `setAlbedo(c, false)` sets the albedo bit for every colour `c` and stores `c`;
`setEmissive(c, false)` sets the emissive bit iff some channel of `c` is strictly greater
than 0, and stores `c`. -/
theorem Material.setAlbedo_setEmissive_unconverted (sRGBToLinearVec3 : Vec3 → Vec3)
    (m : Material) (c : Vec3) :
    (setAlbedo sRGBToLinearVec3 m c false)._key.isAlbedo = true ∧
    (setAlbedo sRGBToLinearVec3 m c false)._albedo = c ∧
    ((setEmissive sRGBToLinearVec3 m c false)._key.isEmissive = true ↔
      (F32.gt c.x (.fin 0) = true ∨ F32.gt c.y (.fin 0) = true ∨ F32.gt c.z (.fin 0) = true)) ∧
    (setEmissive sRGBToLinearVec3 m c false)._emissive = c ∧
    (setAlbedo sRGBToLinearVec3 m ⟨.fin 0, .fin 0, .fin 0⟩ false)._key.isAlbedo = true ∧
    (setAlbedo sRGBToLinearVec3 m ⟨.fin (-1), .fin (-1), .fin (-1)⟩ false)._key.isAlbedo = true ∧
    (setEmissive sRGBToLinearVec3 m ⟨.fin 0, .fin 0, .fin 0⟩ false)._key.isEmissive = false := by
  refine ⟨?_, rfl, ?_, rfl, ?_, ?_, ?_⟩
  · simp [setAlbedo, MaterialKey.isAlbedo, MaterialKey.setAlbedo]
  · simp [setEmissive, MaterialKey.isEmissive, MaterialKey.setEmissive, Vec3.anyGreaterThan,
      Vec3.splat, or_assoc]
  · simp [setAlbedo, MaterialKey.isAlbedo, MaterialKey.setAlbedo]
  · simp [setAlbedo, MaterialKey.isAlbedo, MaterialKey.setAlbedo]
  · simp [setEmissive, MaterialKey.isEmissive, MaterialKey.setEmissive, Vec3.anyGreaterThan,
      Vec3.splat, F32.gt, F32.lt]

/-! ## setTextureMap: members it leaves alone, and the transforms and params it writes -/

/-- Frame of `setTextureMap`: member `_name` is not written. -/
@[simp] theorem Material.setTextureMap_name (m : Material) (c : MapChannel)
    (t : TextureMapPointer) : (m.setTextureMap c t)._name = m._name := by
  unfold setTextureMap
  cases t <;> simp only [Option.isSome_none, Option.isSome_some, Bool.false_eq_true, if_false,
    if_true] <;> split_ifs <;> simp

/-- Frame of `setTextureMap`: member `_model` is not written. -/
@[simp] theorem Material.setTextureMap_model (m : Material) (c : MapChannel)
    (t : TextureMapPointer) : (m.setTextureMap c t)._model = m._model := by
  unfold setTextureMap
  cases t <;> simp only [Option.isSome_none, Option.isSome_some, Bool.false_eq_true, if_false,
    if_true] <;> split_ifs <;> simp

/-- Frame of `setTextureMap`: member `_layers` is not written. -/
@[simp] theorem Material.setTextureMap_layers (m : Material) (c : MapChannel)
    (t : TextureMapPointer) : (m.setTextureMap c t)._layers = m._layers := by
  unfold setTextureMap
  cases t <;> simp only [Option.isSome_none, Option.isSome_some, Bool.false_eq_true, if_false,
    if_true] <;> split_ifs <;> simp

/-- Frame of `setTextureMap`: member `_emissive` is not written. -/
@[simp] theorem Material.setTextureMap_emissive (m : Material) (c : MapChannel)
    (t : TextureMapPointer) : (m.setTextureMap c t)._emissive = m._emissive := by
  unfold setTextureMap
  cases t <;> simp only [Option.isSome_none, Option.isSome_some, Bool.false_eq_true, if_false,
    if_true] <;> split_ifs <;> simp

/-- Frame of `setTextureMap`: member `_opacity` is not written. -/
@[simp] theorem Material.setTextureMap_opacity (m : Material) (c : MapChannel)
    (t : TextureMapPointer) : (m.setTextureMap c t)._opacity = m._opacity := by
  unfold setTextureMap
  cases t <;> simp only [Option.isSome_none, Option.isSome_some, Bool.false_eq_true, if_false,
    if_true] <;> split_ifs <;> simp

/-- Frame of `setTextureMap`: member `_albedo` is not written. -/
@[simp] theorem Material.setTextureMap_albedo (m : Material) (c : MapChannel)
    (t : TextureMapPointer) : (m.setTextureMap c t)._albedo = m._albedo := by
  unfold setTextureMap
  cases t <;> simp only [Option.isSome_none, Option.isSome_some, Bool.false_eq_true, if_false,
    if_true] <;> split_ifs <;> simp

/-- Frame of `setTextureMap`: member `_roughness` is not written. -/
@[simp] theorem Material.setTextureMap_roughness (m : Material) (c : MapChannel)
    (t : TextureMapPointer) : (m.setTextureMap c t)._roughness = m._roughness := by
  unfold setTextureMap
  cases t <;> simp only [Option.isSome_none, Option.isSome_some, Bool.false_eq_true, if_false,
    if_true] <;> split_ifs <;> simp

/-- Frame of `setTextureMap`: member `_metallic` is not written. -/
@[simp] theorem Material.setTextureMap_metallic (m : Material) (c : MapChannel)
    (t : TextureMapPointer) : (m.setTextureMap c t)._metallic = m._metallic := by
  unfold setTextureMap
  cases t <;> simp only [Option.isSome_none, Option.isSome_some, Bool.false_eq_true, if_false,
    if_true] <;> split_ifs <;> simp

/-- Frame of `setTextureMap`: member `_scattering` is not written. -/
@[simp] theorem Material.setTextureMap_scattering (m : Material) (c : MapChannel)
    (t : TextureMapPointer) : (m.setTextureMap c t)._scattering = m._scattering := by
  unfold setTextureMap
  cases t <;> simp only [Option.isSome_none, Option.isSome_some, Bool.false_eq_true, if_false,
    if_true] <;> split_ifs <;> simp

/-- Frame of `setTextureMap`: member `_opacityCutoff` is not written. -/
@[simp] theorem Material.setTextureMap_opacityCutoff (m : Material) (c : MapChannel)
    (t : TextureMapPointer) : (m.setTextureMap c t)._opacityCutoff = m._opacityCutoff := by
  unfold setTextureMap
  cases t <;> simp only [Option.isSome_none, Option.isSome_some, Bool.false_eq_true, if_false,
    if_true] <;> split_ifs <;> simp

/-- Frame of `setTextureMap`: member `_cullFaceMode` is not written. -/
@[simp] theorem Material.setTextureMap_cullFaceMode (m : Material) (c : MapChannel)
    (t : TextureMapPointer) : (m.setTextureMap c t)._cullFaceMode = m._cullFaceMode := by
  unfold setTextureMap
  cases t <;> simp only [Option.isSome_none, Option.isSome_some, Bool.false_eq_true, if_false,
    if_true] <;> split_ifs <;> simp

/-- Frame of `setTextureMap`: member `_samplers` is not written. -/
@[simp] theorem Material.setTextureMap_samplers (m : Material) (c : MapChannel)
    (t : TextureMapPointer) : (m.setTextureMap c t)._samplers = m._samplers := by
  unfold setTextureMap
  cases t <;> simp only [Option.isSome_none, Option.isSome_some, Bool.false_eq_true, if_false,
    if_true] <;> split_ifs <;> simp

/-- Frame of `setTextureMap`: member `_texCoordSets` is not written. -/
@[simp] theorem Material.setTextureMap_texCoordSets (m : Material) (c : MapChannel)
    (t : TextureMapPointer) : (m.setTextureMap c t)._texCoordSets = m._texCoordSets := by
  unfold setTextureMap
  cases t <;> simp only [Option.isSome_none, Option.isSome_some, Bool.false_eq_true, if_false,
    if_true] <;> split_ifs <;> simp

/-- Frame of `setTextureMap`: member `_defaultFallthrough` is not written. -/
@[simp] theorem Material.setTextureMap_defaultFallthrough (m : Material) (c : MapChannel)
    (t : TextureMapPointer) : (m.setTextureMap c t)._defaultFallthrough = m._defaultFallthrough := by
  unfold setTextureMap
  cases t <;> simp only [Option.isSome_none, Option.isSome_some, Bool.false_eq_true, if_false,
    if_true] <;> split_ifs <;> simp

/-- Frame of `setTextureMap`: member `_propertyFallthroughs` is not written. -/
@[simp] theorem Material.setTextureMap_propertyFallthroughs (m : Material) (c : MapChannel)
    (t : TextureMapPointer) : (m.setTextureMap c t)._propertyFallthroughs = m._propertyFallthroughs := by
  unfold setTextureMap
  cases t <;> simp only [Option.isSome_none, Option.isSome_some, Bool.false_eq_true, if_false,
    if_true] <;> split_ifs <;> simp

/-- The UV transforms after `setTextureMap`: slot 0 is rewritten on ALBEDO, slot 1 on
OCCLUSION and on LIGHT_MAP, nothing on the other channels. -/
theorem Material.setTextureMap_texcoordTransforms (m : Material) (c : MapChannel)
    (t : TextureMapPointer) :
    (m.setTextureMap c t)._texcoordTransforms =
      if c = .ALBEDO_MAP then
        storeTransform m._texcoordTransforms ⟨0, by decide⟩ (transformOf t)
      else if c = .OCCLUSION_MAP ∨ c = .LIGHT_MAP then
        storeTransform m._texcoordTransforms ⟨1, by decide⟩ (transformOf t)
      else m._texcoordTransforms := by
  unfold setTextureMap
  cases c <;> cases t <;> simp

/-- The lightmap params after `setTextureMap`: rewritten on LIGHT_MAP only. -/
theorem Material.setTextureMap_lightmapParams (m : Material) (c : MapChannel)
    (t : TextureMapPointer) :
    (m.setTextureMap c t)._lightmapParams =
      if c = .LIGHT_MAP then
        (match t with
          | some tm => tm.getLightmapOffsetScale
          | none => ⟨.fin 0, .fin 1⟩)
      else m._lightmapParams := by
  unfold setTextureMap
  cases c <;> cases t <;> simp

/-- The material params after `setTextureMap`: rewritten on every channel. -/
theorem Material.setTextureMap_materialParams (m : Material) (c : MapChannel)
    (t : TextureMapPointer) :
    (m.setTextureMap c t)._materialParams =
      (match t with
        | some tm => ⟨F32.ofEnum tm.getMappingMode, F32.ofBool tm.getRepeat⟩
        | none => ⟨F32.ofEnum MaterialMappingMode.UV, .fin 1⟩) := by
  unfold setTextureMap
  cases t <;> rfl

/-! ## Scalar setters: opacity and frame -/

/-- C11: `setOpacity(v)` stores `v` as it is, also below 0 and above 1, and sets the
translucent-factor bit iff `v < 1`; on a fresh material, `setAlbedo({1,0,0}, true)` then
`setOpacity(0.5)` gives a key with the albedo and translucent-factor bits set and an
opacity of 0.5. -/
theorem Material.setOpacity_stores_raw (sRGBToLinearVec3 : Vec3 → Vec3) (m : Material)
    (v : F32) :
    (m.setOpacity v)._opacity = v ∧
    ((m.setOpacity v)._key.isTranslucentFactor = true ↔ F32.lt v (.fin 1) = true) ∧
    ((m.setOpacity (.fin (-1)))._opacity = .fin (-1) ∧
      (m.setOpacity (.fin (-1)))._key.isTranslucentFactor = true) ∧
    ((m.setOpacity (.fin 2))._opacity = .fin 2 ∧
      (m.setOpacity (.fin 2))._key.isTranslucentFactor = false) ∧
    ((setAlbedo sRGBToLinearVec3 fresh ⟨.fin 1, .fin 0, .fin 0⟩ true).setOpacity
        (.fin (1 / 2)))._key.isAlbedo = true ∧
    ((setAlbedo sRGBToLinearVec3 fresh ⟨.fin 1, .fin 0, .fin 0⟩ true).setOpacity
        (.fin (1 / 2)))._key.isTranslucentFactor = true ∧
    ((setAlbedo sRGBToLinearVec3 fresh ⟨.fin 1, .fin 0, .fin 0⟩ true).setOpacity
        (.fin (1 / 2)))._opacity = .fin (1 / 2) := by
  refine ⟨rfl, ?_, ⟨rfl, ?_⟩, ⟨rfl, ?_⟩, ?_, ?_, rfl⟩
  · simp [setOpacity, MaterialKey.isTranslucentFactor, MaterialKey.setTranslucentFactor]
  · simp [setOpacity, MaterialKey.isTranslucentFactor, MaterialKey.setTranslucentFactor, F32.lt]
  · simp [setOpacity, MaterialKey.isTranslucentFactor, MaterialKey.setTranslucentFactor, F32.lt]
  · simp [setOpacity, setAlbedo, MaterialKey.isAlbedo, MaterialKey.setAlbedo,
      MaterialKey.setTranslucentFactor]
  · simp [setOpacity, MaterialKey.isTranslucentFactor, MaterialKey.setTranslucentFactor, F32.lt]
    norm_num

/-- C12: each of `setEmissive`, `setOpacity`, `setAlbedo`, `setRoughness`, `setMetallic`,
`setScattering`, `setOpacityCutoff` and `setUnlit` leaves every key bit other than its own
unchanged, and the resulting material is the old one with only the key and the setter's
own field replaced: all other scalars, the UV transforms, the lightmap and material params
and the three tables are kept. -/
theorem Material.scalar_setters_frame (sRGBToLinearVec3 : Vec3 → Vec3) (m : Material)
    (c : Vec3) (isSRGB : Bool) (v : F32) (u : Bool) :
    ((∀ b : FlagBit, b ≠ .EMISSIVE_VAL_BIT → (setEmissive sRGBToLinearVec3 m c isSRGB)._key.test b = m._key.test b) ∧
      setEmissive sRGBToLinearVec3 m c isSRGB =
        { m with _key := (setEmissive sRGBToLinearVec3 m c isSRGB)._key, _emissive := (setEmissive sRGBToLinearVec3 m c isSRGB)._emissive }) ∧
    ((∀ b : FlagBit, b ≠ .OPACITY_VAL_BIT → (m.setOpacity v)._key.test b = m._key.test b) ∧
      m.setOpacity v =
        { m with _key := (m.setOpacity v)._key, _opacity := (m.setOpacity v)._opacity }) ∧
    ((∀ b : FlagBit, b ≠ .ALBEDO_VAL_BIT → (setAlbedo sRGBToLinearVec3 m c isSRGB)._key.test b = m._key.test b) ∧
      setAlbedo sRGBToLinearVec3 m c isSRGB =
        { m with _key := (setAlbedo sRGBToLinearVec3 m c isSRGB)._key, _albedo := (setAlbedo sRGBToLinearVec3 m c isSRGB)._albedo }) ∧
    ((∀ b : FlagBit, b ≠ .GLOSSY_VAL_BIT → (m.setRoughness v)._key.test b = m._key.test b) ∧
      m.setRoughness v =
        { m with _key := (m.setRoughness v)._key, _roughness := (m.setRoughness v)._roughness }) ∧
    ((∀ b : FlagBit, b ≠ .METALLIC_VAL_BIT → (m.setMetallic v)._key.test b = m._key.test b) ∧
      m.setMetallic v =
        { m with _key := (m.setMetallic v)._key, _metallic := (m.setMetallic v)._metallic }) ∧
    ((∀ b : FlagBit, b ≠ .SCATTERING_VAL_BIT → (m.setScattering v)._key.test b = m._key.test b) ∧
      m.setScattering v =
        { m with _key := (m.setScattering v)._key, _scattering := (m.setScattering v)._scattering }) ∧
    ((∀ b : FlagBit, b ≠ .OPACITY_CUTOFF_VAL_BIT → (m.setOpacityCutoff v)._key.test b = m._key.test b) ∧
      m.setOpacityCutoff v =
        { m with _key := (m.setOpacityCutoff v)._key, _opacityCutoff := (m.setOpacityCutoff v)._opacityCutoff }) ∧
    ((∀ b : FlagBit, b ≠ .UNLIT_VAL_BIT → (m.setUnlit u)._key.test b = m._key.test b) ∧
      m.setUnlit u = { m with _key := (m.setUnlit u)._key }) := by
  refine ⟨?_, ?_, ?_, ?_, ?_, ?_, ?_, ?_⟩
  · exact ⟨fun b hb => by simp [setEmissive, MaterialKey.setEmissive, hb], rfl⟩
  · exact ⟨fun b hb => by simp [setOpacity, MaterialKey.setTranslucentFactor, hb], rfl⟩
  · exact ⟨fun b hb => by simp [setAlbedo, MaterialKey.setAlbedo, hb], rfl⟩
  · exact ⟨fun b hb => by simp [setRoughness, MaterialKey.setGlossy, hb], rfl⟩
  · exact ⟨fun b hb => by simp [setMetallic, MaterialKey.setMetallic, hb], rfl⟩
  · exact ⟨fun b hb => by simp [setScattering, MaterialKey.setScattering, hb], rfl⟩
  · exact ⟨fun b hb => by simp [setOpacityCutoff, MaterialKey.setOpacityCutoff, hb], rfl⟩
  · exact ⟨fun b hb => by simp [setUnlit, MaterialKey.setUnlit, hb], rfl⟩

/-! ## Light map and occlusion map -/

/-- C13: from any state, `setTextureMap(LIGHT_MAP, tm)` with a non-null `tm` makes the
lightmap params `tm.getLightmapOffsetScale()` and UV-transform slot 1 the matrix of `tm`,
also right after an OCCLUSION assignment; with the null handle the params become `(0, 1)`
and slot 1 the identity; `setTextureMap(OCCLUSION, t)` writes slot 1 from `t` (identity if
null) and keeps the lightmap params, also right after a LIGHT_MAP assignment. -/
theorem Material.lightmap_and_occlusion_share_slot1 (m : Material) :
    (∀ tm : TextureMap,
      (m.setTextureMap .LIGHT_MAP (some tm))._lightmapParams = tm.getLightmapOffsetScale ∧
      (m.setTextureMap .LIGHT_MAP (some tm))._texcoordTransforms ⟨1, by decide⟩
        = tm.getTextureTransformMatrix) ∧
    (∀ (t0 : TextureMapPointer) (tm : TextureMap),
      ((m.setTextureMap .OCCLUSION_MAP t0).setTextureMap .LIGHT_MAP
          (some tm))._texcoordTransforms ⟨1, by decide⟩ = tm.getTextureTransformMatrix) ∧
    ((m.setTextureMap .LIGHT_MAP none)._lightmapParams = ⟨.fin 0, .fin 1⟩ ∧
      (m.setTextureMap .LIGHT_MAP none)._texcoordTransforms ⟨1, by decide⟩ = Mat4.identity) ∧
    (∀ tm : TextureMap,
      (m.setTextureMap .OCCLUSION_MAP (some tm))._texcoordTransforms ⟨1, by decide⟩
        = tm.getTextureTransformMatrix ∧
      (m.setTextureMap .OCCLUSION_MAP (some tm))._lightmapParams = m._lightmapParams) ∧
    ((m.setTextureMap .OCCLUSION_MAP none)._texcoordTransforms ⟨1, by decide⟩ = Mat4.identity ∧
      (m.setTextureMap .OCCLUSION_MAP none)._lightmapParams = m._lightmapParams) ∧
    (∀ (t : TextureMapPointer) (tm : TextureMap),
      ((m.setTextureMap .LIGHT_MAP t).setTextureMap .OCCLUSION_MAP
          (some tm))._texcoordTransforms ⟨1, by decide⟩ = tm.getTextureTransformMatrix ∧
      ((m.setTextureMap .LIGHT_MAP t).setTextureMap .OCCLUSION_MAP (some tm))._lightmapParams
        = (m.setTextureMap .LIGHT_MAP t)._lightmapParams) := by
  refine ⟨?_, ?_, ?_, ?_, ?_, ?_⟩
  · intro tm
    simp [setTextureMap_lightmapParams, setTextureMap_texcoordTransforms, storeTransform,
      transformOf]
  · intro t0 tm
    simp [setTextureMap_texcoordTransforms, storeTransform, transformOf]
  · simp [setTextureMap_lightmapParams, setTextureMap_texcoordTransforms, storeTransform,
      transformOf]
  · intro tm
    simp [setTextureMap_lightmapParams, setTextureMap_texcoordTransforms, storeTransform,
      transformOf]
  · simp [setTextureMap_lightmapParams, setTextureMap_texcoordTransforms, storeTransform,
      transformOf]
  · intro t tm
    simp [setTextureMap_lightmapParams, setTextureMap_texcoordTransforms, storeTransform,
      transformOf]

/-! ## Clearing the ALBEDO map -/

/-- Without an explicit mode, `resetOpacityMap` leaves the inspected key. -/
theorem Material.resetOpacityMap_key_of_not_explicit (m : Material)
    (h : m._key.isOpacityMapMode = false) : (resetOpacityMap m).2._key = m.inspectedKey := by
  rw [resetOpacityMap_eq]
  simp [h]

/-- The key after `setTextureMap(ALBEDO_MAP, null)`: the presence bit is cleared, and, unless
a mode is explicit, so are the two opacity bits (no map is left to inspect). -/
theorem Material.setTextureMap_albedo_none_key (m : Material) :
    (m.setTextureMap .ALBEDO_MAP none)._key =
      if m._key.isOpacityMapMode = true then m._key.setMapChannel .ALBEDO_MAP false
      else ((m._key.setMapChannel .ALBEDO_MAP false).setOpacityMaskMap false).setTranslucentMap
        false := by
  rw [setTextureMap_key_albedo]
  have hk : (m.withMap .ALBEDO_MAP none)._key = m._key.setMapChannel .ALBEDO_MAP false :=
    withMap_key m .ALBEDO_MAP none
  have hexp : (m.withMap .ALBEDO_MAP none)._key.isOpacityMapMode = m._key.isOpacityMapMode := by
    rw [hk]
    simp [MaterialKey.isOpacityMapMode, MaterialKey.setMapChannel]
  have hget : (m.withMap .ALBEDO_MAP none).getTextureMap .ALBEDO_MAP = none := by
    simp [withMap, getTextureMap, ChannelTable.find, ChannelTable.erase]
  by_cases h : m._key.isOpacityMapMode = true
  · rw [resetOpacityMap_of_explicit _ (hexp.trans h), if_pos h, hk]
  · rw [if_neg h, resetOpacityMap_key_of_not_explicit _
      (hexp.trans (Bool.not_eq_true _ ▸ h))]
    unfold inspectedKey
    rw [hget, hk]

/-- Clearing the same key bits twice is clearing them once. -/
theorem Material.setTextureMap_albedo_none_key_twice (m : Material) :
    ((m.setTextureMap .ALBEDO_MAP none).setTextureMap .ALBEDO_MAP none)._key
      = (m.setTextureMap .ALBEDO_MAP none)._key := by
  cases h : m._key.isOpacityMapMode
  · have h2 : ¬ (((m._key.setMapChannel .ALBEDO_MAP false).setOpacityMaskMap
        false).setTranslucentMap false).isOpacityMapMode = true := by
      simpa [MaterialKey.isOpacityMapMode, MaterialKey.setMapChannel,
        MaterialKey.setOpacityMaskMap, MaterialKey.setTranslucentMap] using h
    have e1 : (m.setTextureMap .ALBEDO_MAP none)._key =
        ((m._key.setMapChannel .ALBEDO_MAP false).setOpacityMaskMap false).setTranslucentMap
          false := by
      rw [setTextureMap_albedo_none_key, if_neg (by simp [h])]
    rw [setTextureMap_albedo_none_key (m.setTextureMap .ALBEDO_MAP none), e1, if_neg h2]
    apply MaterialKey.ext_test
    intro b
    simp only [MaterialKey.setMapChannel, MaterialKey.setOpacityMaskMap,
      MaterialKey.setTranslucentMap, MaterialKey.test_set]
    split_ifs <;> simp_all
  · have h2 : (m._key.setMapChannel .ALBEDO_MAP false).isOpacityMapMode = true := by
      simpa [MaterialKey.isOpacityMapMode, MaterialKey.setMapChannel] using h
    have e1 : (m.setTextureMap .ALBEDO_MAP none)._key
        = m._key.setMapChannel .ALBEDO_MAP false := by
      rw [setTextureMap_albedo_none_key, if_pos h]
    rw [setTextureMap_albedo_none_key (m.setTextureMap .ALBEDO_MAP none), e1, if_pos h2]
    apply MaterialKey.ext_test
    intro b
    simp only [MaterialKey.setMapChannel, MaterialKey.test_set]
    split_ifs <;> rfl

/-- Two materials with the same members are the same material. -/
theorem Material.ext_fields {a b : Material}
    (h1 : a._name = b._name) (h2 : a._key = b._key) (h3 : a._model = b._model)
    (h4 : a._layers = b._layers) (h5 : a._emissive = b._emissive)
    (h6 : a._opacity = b._opacity) (h7 : a._albedo = b._albedo)
    (h8 : a._roughness = b._roughness) (h9 : a._metallic = b._metallic)
    (h10 : a._scattering = b._scattering) (h11 : a._opacityCutoff = b._opacityCutoff)
    (h12 : a._texcoordTransforms = b._texcoordTransforms)
    (h13 : a._lightmapParams = b._lightmapParams)
    (h14 : a._materialParams = b._materialParams) (h15 : a._cullFaceMode = b._cullFaceMode)
    (h16 : a._textureMaps = b._textureMaps) (h17 : a._samplers = b._samplers)
    (h18 : a._texCoordSets = b._texCoordSets)
    (h19 : a._defaultFallthrough = b._defaultFallthrough)
    (h20 : a._propertyFallthroughs = b._propertyFallthroughs) : a = b := by
  cases a
  cases b
  simp only [Material.mk.injEq]
  exact ⟨h1, h2, h3, h4, h5, h6, h7, h8, h9, h10, h11, h12, h13, h14, h15, h16, h17, h18,
    h19, h20⟩

/-- C14: `setTextureMap(ALBEDO_MAP, null)` is idempotent: from every material state,
applying it twice leaves exactly the state that applying it once leaves (key, texture
table, UV transforms, material params and every other member). -/
theorem Material.setTextureMap_albedo_null_idempotent (m : Material) :
    (m.setTextureMap .ALBEDO_MAP none).setTextureMap .ALBEDO_MAP none
      = m.setTextureMap .ALBEDO_MAP none := by
  apply ext_fields
  · simp
  · exact setTextureMap_albedo_none_key_twice m
  · simp
  · simp
  · simp
  · simp
  · simp
  · simp
  · simp
  · simp
  · simp
  · rw [setTextureMap_texcoordTransforms (m.setTextureMap .ALBEDO_MAP none),
      setTextureMap_texcoordTransforms m]
    funext i
    simp only [storeTransform, if_true]
    split_ifs <;> rfl
  · simp [setTextureMap_lightmapParams]
  · simp [setTextureMap_materialParams]
  · simp
  · rw [setTextureMap_textureMaps (m.setTextureMap .ALBEDO_MAP none),
      setTextureMap_textureMaps m]
    funext c
    by_cases hc : c = .ALBEDO_MAP <;> simp [ChannelTable.erase, hc]
  · simp
  · simp
  · simp
  · simp

/-! ## Invariants of the reachable states -/

/-- The inspected key never has both opacity bits set. -/
theorem Material.inspectedKey_exclusive (m : Material) :
    m.inspectedKey.OpacityBitsExclusive := by
  unfold inspectedKey MaterialKey.OpacityBitsExclusive
  simp only [MaterialKey.setOpacityMaskMap, MaterialKey.setTranslucentMap,
    MaterialKey.isOpacityMaskMap, MaterialKey.isTranslucentMap]
  split
  · split
    · split
      · split_ifs <;> simp
      · simp
    · simp
  · simp

/-- `resetOpacityMap` keeps the two opacity bits exclusive. -/
theorem Material.resetOpacityMap_keeps_exclusive (m : Material)
    (h : m._key.OpacityBitsExclusive) : (resetOpacityMap m).2._key.OpacityBitsExclusive := by
  rw [resetOpacityMap_eq]
  split_ifs
  · exact h
  · exact inspectedKey_exclusive m

/-- Writing a bit other than the two opacity bits keeps them exclusive. -/
theorem MaterialKey.set_keeps_exclusive (k : MaterialKey) (bit : FlagBit) (value : Bool)
    (hmask : bit ≠ .OPACITY_MASK_MAP_BIT) (htrans : bit ≠ .OPACITY_TRANSLUCENT_MAP_BIT)
    (h : k.OpacityBitsExclusive) : (k.set bit value).OpacityBitsExclusive := by
  unfold MaterialKey.OpacityBitsExclusive at h ⊢
  simpa [MaterialKey.isOpacityMaskMap, MaterialKey.isTranslucentMap, hmask.symm, htrans.symm]
    using h

/-- `setOpacityMapMode` leaves exactly the bits that spell the mode. -/
theorem MaterialKey.setOpacityMapMode_exclusive (k : MaterialKey) (mode : OpacityMapMode) :
    (k.setOpacityMapMode mode).OpacityBitsExclusive := by
  unfold MaterialKey.OpacityBitsExclusive
  cases mode <;>
    simp [MaterialKey.setOpacityMapMode, MaterialKey.isOpacityMaskMap,
      MaterialKey.isTranslucentMap]

/-- `setTextureMap` keeps the two opacity bits exclusive. -/
theorem Material.setTextureMap_keeps_exclusive (m : Material) (c : MapChannel)
    (t : TextureMapPointer) (h : m._key.OpacityBitsExclusive) :
    (m.setTextureMap c t)._key.OpacityBitsExclusive := by
  have hw : (m.withMap c t)._key.OpacityBitsExclusive := by
    rw [withMap_key]
    exact MaterialKey.set_keeps_exclusive _ _ _ (by simp) (by simp) h
  by_cases hc : c = .ALBEDO_MAP
  · subst hc
    rw [setTextureMap_key_albedo]
    exact resetOpacityMap_keeps_exclusive _ hw
  · rw [setTextureMap_key_other m c t hc, ← withMap_key]
    exact hw

/-- Every setter call keeps the two opacity bits exclusive. -/
theorem Material.call_keeps_exclusive (sRGBToLinearVec3 : Vec3 → Vec3) (m : Material)
    (c : SetterCall) (h : m._key.OpacityBitsExclusive) :
    (m.call sRGBToLinearVec3 c)._key.OpacityBitsExclusive := by
  cases c with
  | setEmissive e b => exact MaterialKey.set_keeps_exclusive _ _ _ (by simp) (by simp) h
  | setOpacity v => exact MaterialKey.set_keeps_exclusive _ _ _ (by simp) (by simp) h
  | setUnlit v => exact MaterialKey.set_keeps_exclusive _ _ _ (by simp) (by simp) h
  | setAlbedo e b => exact MaterialKey.set_keeps_exclusive _ _ _ (by simp) (by simp) h
  | setRoughness v => exact MaterialKey.set_keeps_exclusive _ _ _ (by simp) (by simp) h
  | setMetallic v => exact MaterialKey.set_keeps_exclusive _ _ _ (by simp) (by simp) h
  | setScattering v => exact MaterialKey.set_keeps_exclusive _ _ _ (by simp) (by simp) h
  | setOpacityCutoff v => exact MaterialKey.set_keeps_exclusive _ _ _ (by simp) (by simp) h
  | setOpacityMapMode mode => exact MaterialKey.setOpacityMapMode_exclusive _ mode
  | setTextureMap ch t => exact setTextureMap_keeps_exclusive m ch t h
  | resetOpacityMap => exact resetOpacityMap_keeps_exclusive m h

/-- Every sequence of setter calls keeps the two opacity bits exclusive. -/
theorem Material.run_keeps_exclusive (sRGBToLinearVec3 : Vec3 → Vec3)
    (calls : List SetterCall) (m : Material) (h : m._key.OpacityBitsExclusive) :
    (m.run sRGBToLinearVec3 calls)._key.OpacityBitsExclusive := by
  induction calls generalizing m with
  | nil => exact h
  | cons c rest ih => exact ih _ (call_keeps_exclusive sRGBToLinearVec3 m c h)

/-- C18: in every state reached from a fresh material by a finite sequence of setter calls
(scalar setters, `setUnlit`, `setOpacityMapMode`, `setTextureMap`, `resetOpacityMap`), the
opacity-mask bit and the translucent-map bit are not both set, and `getOpacityMapMode()` is
the one classification that holds: OPAQUE with both bits clear, MASK with the mask bit
alone, BLEND with the translucent-map bit alone. -/
theorem Material.opacity_bits_exclusive_reachable (sRGBToLinearVec3 : Vec3 → Vec3)
    (calls : List SetterCall) :
    ¬ ((fresh.run sRGBToLinearVec3 calls)._key.isOpacityMaskMap = true ∧
        (fresh.run sRGBToLinearVec3 calls)._key.isTranslucentMap = true) ∧
    ((fresh.run sRGBToLinearVec3 calls).getOpacityMapMode = .OPACITY_MAP_OPAQUE ↔
      (fresh.run sRGBToLinearVec3 calls)._key.isOpacityMaskMap = false ∧
        (fresh.run sRGBToLinearVec3 calls)._key.isTranslucentMap = false) ∧
    ((fresh.run sRGBToLinearVec3 calls).getOpacityMapMode = .OPACITY_MAP_MASK ↔
      (fresh.run sRGBToLinearVec3 calls)._key.isOpacityMaskMap = true ∧
        (fresh.run sRGBToLinearVec3 calls)._key.isTranslucentMap = false) ∧
    ((fresh.run sRGBToLinearVec3 calls).getOpacityMapMode = .OPACITY_MAP_BLEND ↔
      (fresh.run sRGBToLinearVec3 calls)._key.isOpacityMaskMap = false ∧
        (fresh.run sRGBToLinearVec3 calls)._key.isTranslucentMap = true) := by
  have h0 : fresh._key.OpacityBitsExclusive := by
    simp [MaterialKey.OpacityBitsExclusive, fresh, MaterialKey.empty,
      MaterialKey.isOpacityMaskMap, MaterialKey.test]
  have h := run_keeps_exclusive sRGBToLinearVec3 calls fresh h0
  unfold MaterialKey.OpacityBitsExclusive at h
  refine ⟨h, ?_, ?_, ?_⟩ <;>
    (unfold getOpacityMapMode MaterialKey.getOpacityMapMode
     cases hm : (fresh.run sRGBToLinearVec3 calls)._key.isOpacityMaskMap <;>
       cases ht : (fresh.run sRGBToLinearVec3 calls)._key.isTranslucentMap <;>
       simp_all)

/-! ## The flag returned by resetOpacityMap -/

/-- The mode spelled by the inspected key is decided by the texture table alone. -/
theorem Material.inspectedKey_mode_congr (m1 m2 : Material)
    (h : m1._textureMaps = m2._textureMaps) :
    m1.inspectedKey.getOpacityMapMode = m2.inspectedKey.getOpacityMapMode := by
  unfold inspectedKey getTextureMap
  rw [h]
  cases m2._textureMaps.find .ALBEDO_MAP with
  | none =>
    simp [MaterialKey.getOpacityMapMode, MaterialKey.setOpacityMaskMap,
      MaterialKey.setTranslucentMap, MaterialKey.isOpacityMaskMap, MaterialKey.isTranslucentMap]
  | some p =>
    cases p with
    | none =>
      simp [MaterialKey.getOpacityMapMode, MaterialKey.setOpacityMaskMap,
        MaterialKey.setTranslucentMap, MaterialKey.isOpacityMaskMap,
        MaterialKey.isTranslucentMap]
    | some tm =>
      cases htex : tm.getTextureView._texture with
      | none =>
        simp [htex, TextureView.isValid, MaterialKey.getOpacityMapMode,
          MaterialKey.setOpacityMaskMap, MaterialKey.setTranslucentMap,
          MaterialKey.isOpacityMaskMap, MaterialKey.isTranslucentMap]
      | some tex =>
        cases h1 : tm.useAlphaChannel <;> cases h2 : tm.isDefined <;>
          cases h3 : tex.getUsage.isAlpha <;> cases h4 : tex.getUsage.isAlphaMask <;>
          simp [htex, h1, h2, h3, h4, TextureView.isValid, MaterialKey.getOpacityMapMode,
            MaterialKey.setOpacityMaskMap, MaterialKey.setTranslucentMap,
            MaterialKey.isOpacityMaskMap, MaterialKey.isTranslucentMap]

/-- The flag returned by `resetOpacityMap` tells whether the derived mode changed. -/
theorem Material.resetOpacityMap_fst_iff (m : Material) :
    (resetOpacityMap m).1 = true ↔
      (resetOpacityMap m).2.getOpacityMapMode ≠ m.getOpacityMapMode := by
  rw [resetOpacityMap_eq]
  unfold getOpacityMapMode
  split_ifs with h
  · simp
  · simp only [decide_eq_true_eq]
    exact ⟨fun hne => fun heq => hne heq.symm, fun hne => fun heq => hne heq.symm⟩

/-- A second `resetOpacityMap` right after a first one returns false. -/
theorem Material.resetOpacityMap_twice_fst (m : Material) :
    (resetOpacityMap (resetOpacityMap m).2).1 = false := by
  cases h : m._key.isOpacityMapMode
  · have h1 : (resetOpacityMap m).2 = { m with _key := m.inspectedKey } := by
      rw [resetOpacityMap_eq]
      simp [h]
    have h2 : ({ m with _key := m.inspectedKey } : Material)._key.isOpacityMapMode = false := by
      have := inspectedKey_test_other m .OPACITY_MAP_MODE_BIT (by simp) (by simp)
      simpa [MaterialKey.isOpacityMapMode, this] using h
    rw [h1, resetOpacityMap_eq]
    simp only [h2, Bool.false_eq_true, if_false]
    have h3 := inspectedKey_mode_congr { m with _key := m.inspectedKey } m rfl
    simp [h3]
  · rw [resetOpacityMap_of_explicit m h, resetOpacityMap_of_explicit m h]

/-- C19: `resetOpacityMap` returns true iff the derived mode after the call differs from the
derived mode before it; on a material with no explicit mode, a derived mode OPAQUE and a
valid, defined, alpha-using ALBEDO map with alpha-mask usage it returns true, and a second
call right after it returns false. -/
theorem Material.resetOpacityMap_reports_change (m : Material) :
    ((resetOpacityMap m).1 = true ↔
      (resetOpacityMap m).2.getOpacityMapMode ≠ m.getOpacityMapMode) ∧
    (∀ tex : Texture, m._key.isOpacityMapMode = false →
      m.getOpacityMapMode = .OPACITY_MAP_OPAQUE → m.AlbedoAlphaSource tex →
      tex.getUsage.isAlpha = true → tex.getUsage.isAlphaMask = true →
      (resetOpacityMap m).1 = true) ∧
    (resetOpacityMap (resetOpacityMap m).2).1 = false ∧
    (resetOpacityMap sampleMaskedMaterial).1 = true ∧
    (resetOpacityMap (resetOpacityMap sampleMaskedMaterial).2).1 = false := by
  refine ⟨resetOpacityMap_fst_iff m, ?_, resetOpacityMap_twice_fst m, by decide,
    resetOpacityMap_twice_fst _⟩
  intro tex hexp hmode hsrc ha hmask
  rw [resetOpacityMap_fst_iff, hmode]
  have hbit : (resetOpacityMap m).2._key.isOpacityMaskMap = true :=
    (resetOpacityMap_bits m hexp).1.mpr ⟨tex, hsrc, ha, hmask⟩
  simp [getOpacityMapMode, MaterialKey.getOpacityMapMode, hbit]

/-! ## Key and texture table stay consistent -/

/-- A step that keeps the texture table and the presence bits keeps their agreement. -/
theorem Material.keyMatchesTable_of_same (m m2 : Material) (h : m.KeyMatchesTable)
    (htable : m2._textureMaps = m._textureMaps)
    (hbits : ∀ c, m2._key.isMapChannel c = m._key.isMapChannel c) : m2.KeyMatchesTable := by
  intro c
  rw [htable, hbits c]
  exact h c

/-- `setTextureMap` keeps key and table in agreement. -/
theorem Material.setTextureMap_keeps_match (m : Material) (c : MapChannel)
    (t : TextureMapPointer) (h : m.KeyMatchesTable) : (m.setTextureMap c t).KeyMatchesTable := by
  intro d
  rw [setTextureMap_isMapChannel, setTextureMap_textureMaps]
  by_cases hd : d = c
  · subst hd
    cases t <;> simp [ChannelTable.find, ChannelTable.assign, ChannelTable.erase]
  · have := h d
    cases t <;>
      simpa [ChannelTable.find, ChannelTable.assign, ChannelTable.erase, hd] using this

/-- Every setter call keeps key and table in agreement. -/
theorem Material.call_keeps_match (sRGBToLinearVec3 : Vec3 → Vec3) (m : Material)
    (c : SetterCall) (h : m.KeyMatchesTable) : (m.call sRGBToLinearVec3 c).KeyMatchesTable := by
  cases c with
  | setEmissive e b =>
    exact keyMatchesTable_of_same m _ h rfl (fun c => by
      simp [call, setEmissive, MaterialKey.setEmissive, MaterialKey.isMapChannel])
  | setOpacity v =>
    exact keyMatchesTable_of_same m _ h rfl (fun c => by
      simp [call, setOpacity, MaterialKey.setTranslucentFactor, MaterialKey.isMapChannel])
  | setUnlit v =>
    exact keyMatchesTable_of_same m _ h rfl (fun c => by
      simp [call, setUnlit, MaterialKey.setUnlit, MaterialKey.isMapChannel])
  | setAlbedo e b =>
    exact keyMatchesTable_of_same m _ h rfl (fun c => by
      simp [call, setAlbedo, MaterialKey.setAlbedo, MaterialKey.isMapChannel])
  | setRoughness v =>
    exact keyMatchesTable_of_same m _ h rfl (fun c => by
      simp [call, setRoughness, MaterialKey.setGlossy, MaterialKey.isMapChannel])
  | setMetallic v =>
    exact keyMatchesTable_of_same m _ h rfl (fun c => by
      simp [call, setMetallic, MaterialKey.setMetallic, MaterialKey.isMapChannel])
  | setScattering v =>
    exact keyMatchesTable_of_same m _ h rfl (fun c => by
      simp [call, setScattering, MaterialKey.setScattering, MaterialKey.isMapChannel])
  | setOpacityCutoff v =>
    exact keyMatchesTable_of_same m _ h rfl (fun c => by
      simp [call, setOpacityCutoff, MaterialKey.setOpacityCutoff, MaterialKey.isMapChannel])
  | setOpacityMapMode mode =>
    exact keyMatchesTable_of_same m _ h rfl (fun c => by
      cases mode <;>
        simp [call, setOpacityMapMode, MaterialKey.setOpacityMapMode,
          MaterialKey.isMapChannel])
  | setTextureMap ch t => exact setTextureMap_keeps_match m ch t h
  | resetOpacityMap =>
    exact keyMatchesTable_of_same m _ h (resetOpacityMap_textureMaps m) (fun c =>
      resetOpacityMap_test_other m (.MAP_BIT c) (by simp) (by simp))

/-- Every sequence of setter calls keeps key and table in agreement. -/
theorem Material.run_keeps_match (sRGBToLinearVec3 : Vec3 → Vec3) (calls : List SetterCall)
    (m : Material) (h : m.KeyMatchesTable) : (m.run sRGBToLinearVec3 calls).KeyMatchesTable := by
  induction calls generalizing m with
  | nil => exact h
  | cons c rest ih => exact ih _ (call_keeps_match sRGBToLinearVec3 m c h)

/-- C20: in every state reached from a fresh material by a finite sequence of setter calls
(`setTextureMap` interleaved with the scalar setters, and the other setters as well), for
every channel the presence bit is set iff the texture table holds an entry for the channel,
every entry held is a non-null handle, and so the presence bit is set iff
`getTextureMap` of the channel is non-null. -/
theorem Material.key_table_consistent_reachable (sRGBToLinearVec3 : Vec3 → Vec3)
    (calls : List SetterCall) (c : MapChannel) :
    ((fresh.run sRGBToLinearVec3 calls)._key.isMapChannel c = true ↔
      ∃ entry, (fresh.run sRGBToLinearVec3 calls)._textureMaps.find c = some entry) ∧
    (∀ entry, (fresh.run sRGBToLinearVec3 calls)._textureMaps.find c = some entry →
      entry ≠ none) ∧
    ((fresh.run sRGBToLinearVec3 calls)._key.isMapChannel c = true ↔
      (fresh.run sRGBToLinearVec3 calls).getTextureMap c ≠ none) := by
  have h0 : fresh.KeyMatchesTable := by
    intro d
    simp [fresh, MaterialKey.empty, MaterialKey.isMapChannel, MaterialKey.test,
      ChannelTable.find]
  obtain ⟨hbit, hnull⟩ := run_keeps_match sRGBToLinearVec3 calls fresh h0 c
  refine ⟨?_, ?_, ?_⟩
  · rw [hbit, Option.isSome_iff_exists]
  · intro entry he hn
    rw [he, hn] at hnull
    exact hnull rfl
  · rw [hbit]
    unfold getTextureMap
    cases he : (fresh.run sRGBToLinearVec3 calls)._textureMaps.find c with
    | none => simp
    | some entry =>
      cases entry with
      | none => exact absurd he hnull
      | some tm => simp

/-! ## MultiMaterial: the schema buffer -/

/-- With the current flag and layer count as arguments, `setisMToonAndLayers` does nothing,
whatever the layer count is. -/
theorem MultiMaterial.setisMToonAndLayers_same {World : Type} (sizes : SchemaSizes)
    (mm : MultiMaterial World) :
    mm.setisMToonAndLayers sizes mm._isMToon mm._layers = some mm := by
  simp [setisMToonAndLayers]

/-- With a different flag or layer count, and at most three layers, `setisMToonAndLayers`
returns: it stores both and makes one new buffer of the size of `layers` schemas of the
chosen variant. -/
theorem MultiMaterial.setisMToonAndLayers_changed {World : Type} (sizes : SchemaSizes)
    (mm : MultiMaterial World) (isMToon : Bool) (layers : Nat)
    (h : isMToon ≠ mm._isMToon ∨ layers ≠ mm._layers) (hL : layers ≤ 3) :
    ∃ s, mm.setisMToonAndLayers sizes isMToon layers = some s ∧
      s._isMToon = isMToon ∧ s._layers = layers ∧
      s._schemaBuffer._size = layers * activeSchemaSize sizes isMToon ∧
      s.buffersMade = mm.buffersMade + 1 := by
  unfold setisMToonAndLayers activeSchemaSize
  rw [if_pos h]
  cases isMToon
  · have hb : layers * sizes.sizeofSchema ≤ 3 * sizes.sizeofSchema :=
      Nat.mul_le_mul_right _ hL
    simp [hb]
  · have hb : layers * sizes.sizeofMToonSchema ≤ 3 * sizes.sizeofMToonSchema :=
      Nat.mul_le_mul_right _ hL
    simp [hb]

/-- A returning `setisMToonAndLayers` keeps the schema buffer sized to the layers. -/
theorem MultiMaterial.setisMToonAndLayers_keeps_sized {World : Type} (sizes : SchemaSizes)
    (mm s : MultiMaterial World) (isMToon : Bool) (layers : Nat)
    (h : mm.SchemaBufferSized sizes)
    (hs : mm.setisMToonAndLayers sizes isMToon layers = some s) :
    s.SchemaBufferSized sizes := by
  unfold setisMToonAndLayers at hs
  by_cases hc : isMToon ≠ mm._isMToon ∨ layers ≠ mm._layers
  · rw [if_pos hc] at hs
    cases isMToon
    · simp only [Bool.false_eq_true, if_false] at hs
      split_ifs at hs
      cases hs
      simp [SchemaBufferSized, activeSchemaSize]
    · simp only [if_true] at hs
      split_ifs at hs
      cases hs
      simp [SchemaBufferSized, activeSchemaSize]
  · rw [if_neg hc] at hs
    cases hs
    exact h

/-- `calculateMaterialInfo` writes the three statistics members only. -/
theorem MultiMaterial.calculateMaterialInfo_frame {World : Type} (mm s : MultiMaterial World)
    (h : mm.calculateMaterialInfo = some s) :
    s._schemaBuffer = mm._schemaBuffer ∧ s._layers = mm._layers ∧ s._isMToon = mm._isMToon ∧
    s._textureTables = mm._textureTables ∧ s._referenceTextures = mm._referenceTextures ∧
    s._referenceMaterials = mm._referenceMaterials ∧ s.buffersMade = mm.buffersMade := by
  unfold calculateMaterialInfo at h
  split_ifs at h
  · split at h
    · cases h
      exact ⟨rfl, rfl, rfl, rfl, rfl, rfl, rfl⟩
    · cases h
  · cases h
    exact ⟨rfl, rfl, rfl, rfl, rfl, rfl, rfl⟩

/-- Every method call keeps the schema buffer sized to the layers. -/
theorem MultiMaterial.call_keeps_sized {World : Type} (sizes : SchemaSizes)
    (mm s : MultiMaterial World) (c : MultiCall World) (h : mm.SchemaBufferSized sizes)
    (hs : mm.call sizes c = some s) : s.SchemaBufferSized sizes := by
  cases c with
  | setisMToonAndLayers isMToon layers =>
    exact setisMToonAndLayers_keeps_sized sizes mm s isMToon layers h hs
  | calculateMaterialInfo =>
    obtain ⟨h1, h2, h3, _⟩ := calculateMaterialInfo_frame mm s hs
    unfold SchemaBufferSized at h ⊢
    rw [h1, h2, h3]
    exact h
  | resetReferenceTexturesAndMaterials =>
    cases hs
    exact h
  | addReferenceTexture w op =>
    cases hs
    exact h
  | addReferenceMaterial w op =>
    cases hs
    exact h

/-- Every sequence of method calls keeps the schema buffer sized to the layers. -/
theorem MultiMaterial.run_keeps_sized {World : Type} (sizes : SchemaSizes)
    (calls : List (MultiCall World)) (mm s : MultiMaterial World)
    (h : mm.SchemaBufferSized sizes) (hs : MultiMaterial.run sizes mm calls = some s) :
    s.SchemaBufferSized sizes := by
  induction calls generalizing mm with
  | nil =>
    cases hs
    exact h
  | cons c rest ih =>
    unfold MultiMaterial.run at hs
    cases hc : mm.call sizes c with
    | none => simp [hc] at hs
    | some mm2 =>
      rw [hc] at hs
      exact ih mm2 (call_keeps_sized sizes mm mm2 c h hc) hs

/-- A sequence of `setisMToonAndLayers` calls, each with at most three layers, runs to its
end. -/
theorem MultiMaterial.setisMToonAndLayers_list_returns {World : Type} (sizes : SchemaSizes)
    (args : List (Bool × Nat)) (hargs : ∀ a ∈ args, a.2 ≤ 3) (mm : MultiMaterial World) :
    ∃ s, MultiMaterial.run sizes mm
      (args.map (fun a => MultiCall.setisMToonAndLayers a.1 a.2)) = some s := by
  induction args generalizing mm with
  | nil => exact ⟨mm, rfl⟩
  | cons a rest ih =>
    have ha : a.2 ≤ 3 := hargs a (List.mem_cons_self _ _)
    have hrest : ∀ b ∈ rest, b.2 ≤ 3 := fun b hb => hargs b (List.mem_cons_of_mem _ hb)
    have hstep : ∃ s1, mm.setisMToonAndLayers sizes a.1 a.2 = some s1 := by
      by_cases hc : a.1 ≠ mm._isMToon ∨ a.2 ≠ mm._layers
      · obtain ⟨s1, h1, _⟩ := setisMToonAndLayers_changed sizes mm a.1 a.2 hc ha
        exact ⟨s1, h1⟩
      · exact ⟨mm, by simp [setisMToonAndLayers, hc]⟩
    obtain ⟨s1, h1⟩ := hstep
    obtain ⟨s, hs⟩ := ih hrest s1
    refine ⟨s, ?_⟩
    simp only [List.map_cons, MultiMaterial.run, MultiMaterial.call, h1]
    exact hs

/-- C15, as stated, fails: on a newly constructed object, `setisMToonAndLayers(true, 4)`
copies `4 * sizeof(MToonSchema)` bytes out of an array of three schemas, so the call has
no defined result instead of a buffer of that size. -/
theorem MultiMaterial.setisMToonAndLayers_past_capacity :
    sampleFreshMultiMaterial.setisMToonAndLayers sampleSchemaSizes true 4 = none := by
  simp [setisMToonAndLayers, sampleFreshMultiMaterial, fresh, sampleSchemaSizes]

/-- C15, amended: `setisMToonAndLayers(isMToon, n)` changes nothing (no buffer is made) when
both arguments equal the current flag and layer count; otherwise, for `n <= 3` (the
capacity of the schema array the new buffer is copied from), it returns, stores both and
replaces the schema buffer by one new buffer of `n * sizeof(MToonSchema)` bytes when toon
and `n * sizeof(Schema)` otherwise. So in every state reached from construction by calls
that return, the buffer size is the layer count times the size of the active variant;
every sequence of calls with at most three layers returns; and two calls
`setisMToonAndLayers(true, 2)` on a new object make exactly one buffer, of
`2 * sizeof(MToonSchema)` bytes. -/
theorem MultiMaterial.setisMToonAndLayers_within_capacity {World : Type}
    (sizes : SchemaSizes) (emptyTable : TextureTable) (mm : MultiMaterial World)
    (isMToon : Bool) (layers : Nat) (calls : List (MultiCall World))
    (args : List (Bool × Nat)) :
    ((isMToon = mm._isMToon ∧ layers = mm._layers) →
      mm.setisMToonAndLayers sizes isMToon layers = some mm) ∧
    ((isMToon ≠ mm._isMToon ∨ layers ≠ mm._layers) → layers ≤ 3 →
      ∃ s, mm.setisMToonAndLayers sizes isMToon layers = some s ∧
        s._isMToon = isMToon ∧ s._layers = layers ∧
        s._schemaBuffer._size
          = layers * (if isMToon then sizes.sizeofMToonSchema else sizes.sizeofSchema) ∧
        s.buffersMade = mm.buffersMade + 1) ∧
    (∀ s : MultiMaterial World,
      MultiMaterial.run sizes (MultiMaterial.fresh sizes emptyTable) calls = some s →
      s._schemaBuffer._size
        = s._layers * (if s._isMToon then sizes.sizeofMToonSchema else sizes.sizeofSchema)) ∧
    ((∀ a ∈ args, a.2 ≤ 3) →
      ∃ s : MultiMaterial World,
        MultiMaterial.run sizes (MultiMaterial.fresh sizes emptyTable)
          (args.map (fun a => MultiCall.setisMToonAndLayers a.1 a.2)) = some s ∧
        s._schemaBuffer._size
          = s._layers * (if s._isMToon then sizes.sizeofMToonSchema else sizes.sizeofSchema)) ∧
    (∃ s : MultiMaterial World,
      (MultiMaterial.fresh sizes emptyTable).setisMToonAndLayers sizes true 2 = some s ∧
      s.setisMToonAndLayers sizes true 2 = some s ∧
      s._schemaBuffer._size = 2 * sizes.sizeofMToonSchema ∧
      s.buffersMade
        = (MultiMaterial.fresh sizes emptyTable : MultiMaterial World).buffersMade + 1) := by
  have hfresh : (MultiMaterial.fresh sizes emptyTable : MultiMaterial World).SchemaBufferSized
      sizes := by
    simp [SchemaBufferSized, fresh, activeSchemaSize]
  refine ⟨?_, ?_, ?_, ?_, ?_⟩
  · rintro ⟨h1, h2⟩
    rw [h1, h2]
    exact setisMToonAndLayers_same sizes mm
  · intro h hL
    exact setisMToonAndLayers_changed sizes mm isMToon layers h hL
  · intro s hs
    exact run_keeps_sized sizes calls _ s hfresh hs
  · intro hargs
    obtain ⟨s, hs⟩ := setisMToonAndLayers_list_returns sizes args hargs
      (MultiMaterial.fresh sizes emptyTable : MultiMaterial World)
    exact ⟨s, hs, run_keeps_sized sizes _ _ s hfresh hs⟩
  · obtain ⟨s, hs, h1, h2, h3, h4⟩ := setisMToonAndLayers_changed sizes
      (MultiMaterial.fresh sizes emptyTable : MultiMaterial World) true 2
      (Or.inl (by simp [fresh])) (by decide)
    refine ⟨s, hs, ?_, ?_, h4⟩
    · have := setisMToonAndLayers_same sizes s
      rw [h1, h2] at this
      exact this
    · rw [h3]
      simp [activeSchemaSize]

/-! ## MultiMaterial: reference producers -/

/-- The scan of one reference list answers true iff some stored producer now returns a handle
other than its stored one. -/
theorem MultiMaterial.anyReferenceChanged_iff {World : Type} (w : World)
    (refs : List (Producer World × HandleId)) :
    anyReferenceChanged w refs = true ↔ ∃ p ∈ refs, p.1 w ≠ p.2 := by
  induction refs with
  | nil => simp [anyReferenceChanged]
  | cons p rest ih =>
    unfold anyReferenceChanged
    by_cases hp : p.1 w ≠ p.2
    · simp [hp]
    · have hp2 : p.1 w = p.2 := not_not.mp hp
      simp [hp2, ih]

/-- C16: `anyReferenceMaterialsOrTexturesChanged()` returns true iff some stored producer,
texture or material, now returns a handle other than the one stored with it. It is a
read-only function of the object, so the lists are as before and the same answer comes
again as long as a stored producer differs; after `resetReferenceTexturesAndMaterials` the
answer is false. A producer registered alone answers false while it returns its
registration-time handle and true once it returns another one; registered next to others,
it answers true once it returns another handle. -/
theorem MultiMaterial.anyReferenceChanged_detects {World : Type} (mm : MultiMaterial World)
    (w0 w : World) (op : Producer World) :
    (mm.anyReferenceMaterialsOrTexturesChanged w = true ↔
      ((∃ p ∈ mm._referenceTextures, p.1 w ≠ p.2) ∨
        (∃ p ∈ mm._referenceMaterials, p.1 w ≠ p.2))) ∧
    (mm.resetReferenceTexturesAndMaterials.anyReferenceMaterialsOrTexturesChanged w = false) ∧
    ((mm.addReferenceTexture w0 op)._referenceTextures
        = mm._referenceTextures ++ [(op, op w0)] ∧
      (mm.addReferenceMaterial w0 op)._referenceMaterials
        = mm._referenceMaterials ++ [(op, op w0)]) ∧
    (((mm.resetReferenceTexturesAndMaterials.addReferenceTexture w0
        op).anyReferenceMaterialsOrTexturesChanged w = true ↔ op w ≠ op w0) ∧
      ((mm.resetReferenceTexturesAndMaterials.addReferenceMaterial w0
        op).anyReferenceMaterialsOrTexturesChanged w = true ↔ op w ≠ op w0)) ∧
    ((mm.resetReferenceTexturesAndMaterials.addReferenceTexture w0
        op).anyReferenceMaterialsOrTexturesChanged w0 = false) ∧
    (op w ≠ op w0 →
      (mm.addReferenceTexture w0 op).anyReferenceMaterialsOrTexturesChanged w = true ∧
      (mm.addReferenceMaterial w0 op).anyReferenceMaterialsOrTexturesChanged w = true) := by
  have hiff : ∀ m2 : MultiMaterial World, (m2.anyReferenceMaterialsOrTexturesChanged w = true ↔
      ((∃ p ∈ m2._referenceTextures, p.1 w ≠ p.2) ∨
        (∃ p ∈ m2._referenceMaterials, p.1 w ≠ p.2))) := by
    intro m2
    unfold anyReferenceMaterialsOrTexturesChanged
    rw [← anyReferenceChanged_iff, ← anyReferenceChanged_iff]
    cases anyReferenceChanged w m2._referenceTextures <;>
      cases anyReferenceChanged w m2._referenceMaterials <;> simp
  refine ⟨hiff mm, ?_, ⟨rfl, rfl⟩, ⟨?_, ?_⟩, ?_, ?_⟩
  · simp [anyReferenceMaterialsOrTexturesChanged, resetReferenceTexturesAndMaterials,
      anyReferenceChanged]
  · rw [hiff]
    simp [resetReferenceTexturesAndMaterials, addReferenceTexture]
  · rw [hiff]
    simp [resetReferenceTexturesAndMaterials, addReferenceMaterial]
  · simp [anyReferenceMaterialsOrTexturesChanged, resetReferenceTexturesAndMaterials,
      addReferenceTexture, anyReferenceChanged]
  · intro hne
    constructor
    · rw [hiff]
      left
      exact ⟨(op, op w0), by simp [addReferenceTexture], hne⟩
    · rw [hiff]
      right
      exact ⟨(op, op w0), by simp [addReferenceMaterial], hne⟩

/-! ## MultiMaterial: texture statistics -/

/-- The inner loop adds, to the running statistics, the count and the sizes of the ready
handles of the table, and clears the flag when some handle is not ready. -/
theorem MultiMaterial.calculateMaterialInfoTextures_eq (textures : List TexturePointer)
    (allTextures : Bool) (textureSize textureCount : Nat) :
    calculateMaterialInfoTextures textures (allTextures, textureSize, textureCount) =
      (allTextures && textures.all TexturePointer.isReady,
        textureSize + readySize textures, textureCount + readyCount textures) := by
  induction textures generalizing allTextures textureSize textureCount with
  | nil => simp [calculateMaterialInfoTextures, readySize, readyCount]
  | cons t rest ih =>
    cases t with
    | none =>
      simp [calculateMaterialInfoTextures, ih, readySize, readyCount, TexturePointer.isReady]
    | some tex =>
      cases hd : tex.isDefined
      · simp [calculateMaterialInfoTextures, ih, readySize, readyCount, TexturePointer.isReady,
          hd]
      · simp [calculateMaterialInfoTextures, ih, readySize, readyCount, TexturePointer.isReady,
          TexturePointer.sizeOrZero, hd, Nat.add_assoc, Nat.add_comm rest.length.succ]
        omega

/-- The statistics of a concatenation are those of its parts. -/
theorem readyCount_append (a b : List TexturePointer) :
    readyCount (a ++ b) = readyCount a + readyCount b := by
  simp [readyCount]

/-- The sizes of a concatenation are those of its parts. -/
theorem readySize_append (a b : List TexturePointer) :
    readySize (a ++ b) = readySize a + readySize b := by
  simp [readySize]

/-- With at most three layers the two loops run to their end, and leave the statistics of
the active textures. -/
theorem MultiMaterial.calculateMaterialInfoLayers_eq {World : Type} (mm : MultiMaterial World)
    (hL : mm._layers ≤ 3) :
    calculateMaterialInfoLayers mm._textureTables (List.range mm._layers) (true, 0, 0) =
      some (mm.activeTextures.all TexturePointer.isReady, readySize mm.activeTextures,
        readyCount mm.activeTextures) := by
  unfold activeTextures
  have h : mm._layers = 0 ∨ mm._layers = 1 ∨ mm._layers = 2 ∨ mm._layers = 3 := by omega
  rcases h with h | h | h | h <;> rw [h]
  · rfl
  · have hu : calculateMaterialInfoLayers mm._textureTables (List.range 1) (true, 0, 0) =
        some (calculateMaterialInfoTextures (mm._textureTables 0).getTextures (true, 0, 0)) :=
      rfl
    rw [hu, calculateMaterialInfoTextures_eq]
    simp only [Nat.lt_irrefl, if_false, Nat.zero_lt_one, if_true, List.append_nil,
      Bool.true_and, Nat.zero_add, Nat.one_lt_ofNat, show ¬ (2 < 1) by decide]
  · have hu : calculateMaterialInfoLayers mm._textureTables (List.range 2) (true, 0, 0) =
        some (calculateMaterialInfoTextures (mm._textureTables 1).getTextures
          (calculateMaterialInfoTextures (mm._textureTables 0).getTextures (true, 0, 0))) :=
      rfl
    rw [hu, calculateMaterialInfoTextures_eq, calculateMaterialInfoTextures_eq]
    simp only [show (0 < 2) by decide, show (1 < 2) by decide, Nat.lt_irrefl, if_false,
      if_true, List.append_nil, Bool.true_and, Nat.zero_add, List.all_append,
      readyCount_append, readySize_append]
  · have hu : calculateMaterialInfoLayers mm._textureTables (List.range 3) (true, 0, 0) =
        some (calculateMaterialInfoTextures (mm._textureTables 2).getTextures
          (calculateMaterialInfoTextures (mm._textureTables 1).getTextures
            (calculateMaterialInfoTextures (mm._textureTables 0).getTextures (true, 0, 0)))) :=
      rfl
    rw [hu, calculateMaterialInfoTextures_eq, calculateMaterialInfoTextures_eq,
      calculateMaterialInfoTextures_eq]
    simp only [show (0 < 3) by decide, show (1 < 3) by decide, show (2 < 3) by decide,
      if_true, Bool.true_and, Nat.zero_add, List.all_append, readyCount_append,
      readySize_append]

/-- C17: with at most three layers, `calculateMaterialInfo()` changes nothing when the cache
flag is already true; otherwise it returns with the texture count equal to the number of
non-null, defined handles in the tables of layers `0 .. L-1`, the texture size equal to the
sum of their sizes, the flag true iff every handle of those tables is non-null and
defined, and nothing else written. A second call on the result, texture tables unchanged,
leaves count, size and flag as they are. -/
theorem MultiMaterial.calculateMaterialInfo_contract {World : Type} (mm : MultiMaterial World)
    (hL : mm._layers ≤ 3) :
    (mm._hasCalculatedTextureInfo = true → mm.calculateMaterialInfo = some mm) ∧
    (mm._hasCalculatedTextureInfo = false →
      ∃ s, mm.calculateMaterialInfo = some s ∧
        s._textureCount = readyCount mm.activeTextures ∧
        s._textureSize = readySize mm.activeTextures ∧
        (s._hasCalculatedTextureInfo = true ↔
          ∀ t ∈ mm.activeTextures, TexturePointer.isReady t = true) ∧
        s._textureTables = mm._textureTables ∧ s._layers = mm._layers) ∧
    (∃ s, mm.calculateMaterialInfo = some s ∧ s.calculateMaterialInfo = some s) := by
  have hfalse : ∀ m2 : MultiMaterial World, m2._layers ≤ 3 →
      m2._hasCalculatedTextureInfo = false →
      m2.calculateMaterialInfo = some { m2 with
        _textureSize := readySize m2.activeTextures
        _textureCount := readyCount m2.activeTextures
        _hasCalculatedTextureInfo := m2.activeTextures.all TexturePointer.isReady } := by
    intro m2 h2 hf
    unfold calculateMaterialInfo
    rw [calculateMaterialInfoLayers_eq m2 h2]
    simp [hf]
  have htrue : ∀ m2 : MultiMaterial World, m2._hasCalculatedTextureInfo = true →
      m2.calculateMaterialInfo = some m2 := by
    intro m2 ht
    simp [calculateMaterialInfo, ht]
  refine ⟨htrue mm, ?_, ?_⟩
  · intro hf
    refine ⟨_, hfalse mm hL hf, rfl, rfl, ?_, rfl, rfl⟩
    simp [List.all_eq_true]
  · cases hf : mm._hasCalculatedTextureInfo
    · refine ⟨_, hfalse mm hL hf, ?_⟩
      cases hall : mm.activeTextures.all TexturePointer.isReady
      · have hact : ({ mm with
            _textureSize := readySize mm.activeTextures
            _textureCount := readyCount mm.activeTextures
            _hasCalculatedTextureInfo := false } : MultiMaterial World).activeTextures
            = mm.activeTextures := rfl
        have hs := hfalse { mm with
            _textureSize := readySize mm.activeTextures
            _textureCount := readyCount mm.activeTextures
            _hasCalculatedTextureInfo := false } hL rfl
        rw [hs, hact, hall]
      · exact htrue _ rfl
    · exact ⟨mm, htrue mm hf, htrue mm hf⟩

/-- Witness of C17 on a two-layer object with stale statistics. -/
theorem MultiMaterial.calculateMaterialInfo_contract_witness :
    sampleMultiMaterial._layers ≤ 3 ∧
    ((sampleMultiMaterial._hasCalculatedTextureInfo = true →
      sampleMultiMaterial.calculateMaterialInfo = some sampleMultiMaterial) ∧
    (sampleMultiMaterial._hasCalculatedTextureInfo = false →
      ∃ s, sampleMultiMaterial.calculateMaterialInfo = some s ∧
        s._textureCount = readyCount sampleMultiMaterial.activeTextures ∧
        s._textureSize = readySize sampleMultiMaterial.activeTextures ∧
        (s._hasCalculatedTextureInfo = true ↔
          ∀ t ∈ sampleMultiMaterial.activeTextures, TexturePointer.isReady t = true) ∧
        s._textureTables = sampleMultiMaterial._textureTables ∧
        s._layers = sampleMultiMaterial._layers) ∧
    (∃ s, sampleMultiMaterial.calculateMaterialInfo = some s ∧
      s.calculateMaterialInfo = some s)) :=
  ⟨by decide, MultiMaterial.calculateMaterialInfo_contract sampleMultiMaterial (by decide)⟩

end graphics
